import Mathlib

/-!
Verification development for the chittyledger evidence platform.

We give a shallow embedding of the evidence trust lifecycle core:
the tier-based trust score tables, linear time decay, the 6-axis
minting-eligibility scorer and `mintEvidence` (storage layer), the
Bayesian likelihood of the scientific trust assessor, the fact
extraction engine, and the pairwise contradiction-detection engine.

Machine numbers are modelled by `ℚ` (JavaScript numbers; all values
touched by the theorems are exact in ℚ), timestamps by `Int`
(milliseconds since the epoch, i.e. `Date.getTime()`), database
strings by `String`, and nullable fields by `Option`.  JS `NaN`
outcomes are modelled by `Option`/sentinels at the points noted.

The arithmetic on ℚ is written with the explicit operations `qAdd`,
`qSub`, `qMul`, `qDiv`, `qAbs`, `qMax` (numerator/denominator
computations via `Rat.divInt`).  They are proved equal to `+`, `-`,
`*`, `/`, `|·|`, `max` on ℚ below (`qAdd_eq` …), so every definition
is exact rational arithmetic; the explicit form keeps every function
kernel-computable, which the concrete-input theorems rely on.
-/

namespace ChittyLedger

/-! ### Kernel-computable rational arithmetic -/

def qAdd (a b : ℚ) : ℚ := Rat.divInt (a.num * b.den + b.num * a.den) (a.den * b.den)

def qSub (a b : ℚ) : ℚ := Rat.divInt (a.num * b.den - b.num * a.den) (a.den * b.den)

def qMul (a b : ℚ) : ℚ := Rat.divInt (a.num * b.num) (a.den * b.den)

/-- Division; `qDiv a 0 = 0` (the JS `NaN`/`Infinity` outcomes of a zero
denominator never influence a detector verdict, see the call sites). -/
def qDiv (a b : ℚ) : ℚ := Rat.divInt (a.num * b.den) (a.den * b.num)

def qNeg (a : ℚ) : ℚ := Rat.divInt (-a.num) a.den

def qAbs (a : ℚ) : ℚ := if a < 0 then qNeg a else a

def qMax (a b : ℚ) : ℚ := if a < b then b else a

/-- Rounding to the nearest integer, ties up — `⌊q + 1/2⌋`, which is the
tie-breaking rule of ECMAScript `toFixed` ("pick the larger n"). -/
def roundHalfUp (q : ℚ) : Int := Int.fdiv (2 * q.num + q.den) (2 * q.den)

/-! ### Character and string helpers (JS string primitives) -/

/-- JS whitespace class `\s` (ASCII part, which is all the sources use). -/
def isWS (c : Char) : Bool :=
  c = ' ' || c = '\t' || c = '\n' || c = '\r'

/-- JS word-character class `\w` = `[A-Za-z0-9_]`. -/
def isWordC (c : Char) : Bool :=
  c.isAlpha || c.isDigit || c = '_'

/-- Model of `[0-9,]` — the character class of the amount-capture regexes. -/
def isNumC (c : Char) : Bool :=
  c.isDigit || c = ','

/-- Does `text` start with `pat` (character lists)? -/
def startsWithL : List Char → List Char → Bool
  | [], _ => true
  | _ :: _, [] => false
  | p :: ps, c :: cs => p = c && startsWithL ps cs

/-- Does `pat` occur inside the character list? -/
def containsLAux (pat : List Char) : List Char → Bool
  | [] => startsWithL pat []
  | c :: cs => startsWithL pat (c :: cs) || containsLAux pat cs

/-- JS `haystack.includes(needle)`. -/
def containsSub (haystack needle : String) : Bool :=
  containsLAux needle.toList haystack.toList

/-- JS `s.toLowerCase()` (ASCII). -/
def toLowerStr (s : String) : String :=
  String.mk (s.toList.map Char.toLower)

/-- JS `s.endsWith(suffixStr)`. -/
def endsWithSub (s sfx : String) : Bool :=
  startsWithL sfx.toList.reverse s.toList.reverse

/-- JS `s.trim()`. -/
def trimStr (s : String) : String :=
  String.mk (((s.toList.dropWhile isWS).reverse.dropWhile isWS).reverse)

/-- Decimal digit list to a natural number. -/
def digitsToNat (l : List Char) : Nat :=
  l.foldl (fun a c => 10 * a + (c.toNat - 48)) 0

/-- Unsigned decimal parse: `[0-9]*` then optionally `.` `[0-9]*`,
at least one digit overall (JS `parseFloat` on the canonical strings
stored by this system; trailing junk is ignored as in JS). -/
def parseUnsignedQ (cs : List Char) : Option ℚ :=
  let ip := cs.takeWhile Char.isDigit
  let rest := cs.drop ip.length
  match rest with
  | '.' :: rest2 =>
    let fp := rest2.takeWhile Char.isDigit
    if ip.isEmpty && fp.isEmpty then none
    else some (qAdd (digitsToNat ip : ℚ) (mkRat (digitsToNat fp) (10 ^ fp.length)))
  | _ => if ip.isEmpty then none else some (digitsToNat ip : ℚ)

/-- JS `parseFloat` on the decimal strings this system stores
(`"0.95"`, `"0.0001"`, …); `none` models `NaN`. -/
def parseFloatQ (s : String) : Option ℚ :=
  match s.toList with
  | '-' :: rest => (parseUnsignedQ rest).map (fun q => -q)
  | cs => parseUnsignedQ cs

/-- Fractional part of `toFixed(2)` on a non-negative value. -/
def toFixed2abs (q : ℚ) : String :=
  let n := (roundHalfUp (qMul q 100)).toNat
  Nat.repr (n / 100) ++ "." ++ (if n % 100 < 10 then "0" else "") ++ Nat.repr (n % 100)

/-- JS `x.toFixed(2)` (negative values are formatted as `-` followed by
the formatting of `-x`, exactly as in the ECMAScript algorithm; ties
round up, which matches "pick the larger n"). -/
def toFixed2 (q : ℚ) : String :=
  if q < 0 then "-" ++ toFixed2abs (-q) else toFixed2abs q

/-- Fractional part of `toFixed(1)` on a non-negative value. -/
def toFixed1abs (q : ℚ) : String :=
  let n := (roundHalfUp (qMul q 10)).toNat
  Nat.repr (n / 10) ++ "." ++ Nat.repr (n % 10)

/-- JS `x.toFixed(1)`. -/
def toFixed1 (q : ℚ) : String :=
  if q < 0 then "-" ++ toFixed1abs (-q) else toFixed1abs q

/-! ### Calendar (JS `new Date(year, monthIndex, day).getTime()`)

Standard civil-calendar day numbering (proleptic Gregorian), giving
days relative to 1970-01-01; `jsDateMs` reproduces the rollover
behaviour of the `Date` constructor for out-of-range months/days.
Time-zone offsets cancel in every difference the engine takes. -/

def daysFromCivil (y m d : Int) : Int :=
  let y2 := if m ≤ 2 then y - 1 else y
  let era := Int.fdiv y2 400
  let yoe := y2 - era * 400
  let mp := Int.emod (m + 9) 12
  let doy := Int.fdiv (153 * mp + 2) 5 + d - 1
  let doe := yoe * 365 + Int.fdiv yoe 4 - Int.fdiv yoe 100 + doy
  era * 146097 + doe - 719468

def jsDateMs (year monthIndex day : Int) : Int :=
  let y2 := year + Int.fdiv monthIndex 12
  let m2 := Int.emod monthIndex 12 + 1
  (daysFromCivil y2 m2 1 + (day - 1)) * 86400000

/-! ### Data model (`@shared/schema` records as used by the core) -/

/-- Model of `Evidence` row (`masterEvidence`).  Numeric-string columns are kept
as strings exactly as the storage layer does; timestamps are epoch ms. -/
structure Evidence where
  id : String
  artifactId : String := ""
  filename : String := ""
  fileType : Option String := none
  fileSize : Option String := none
  descriptionField : Option String := none
  evidenceTier : String
  trustScore : String
  originalTrustScore : String := "0.00"
  status : String
  blockNumber : Option String := none
  hashValue : Option String := none
  caseId : Option String := none
  uploadedBy : Option String := none
  uploadedAt : Int := 0
  verifiedAt : Option Int := none
  mintedAt : Option Int := none
  trustDegradationRate : Option String := none
  lastTrustUpdate : Int := 0
  corroborationCount : Option Nat := none
  conflictCount : Option Nat := none
  mintingEligible : Bool := false
  mintingScore : String := "0.00"
  chittytrustScore : String := "0.00"
deriving DecidableEq, Repr

/-- Model of `AtomicFact` row, restricted to the fields the engines read. -/
structure AtomicFact where
  content : String
  factType : String
  confidenceScore : String := "0.80"
  evidenceId : Option String := none
deriving DecidableEq, Repr

/-- Model of `ChainOfCustodyEntry` row. -/
structure ChainOfCustody where
  evidenceId : String
  action : String
  performedBy : String := ""
  timestamp : Int := 0
  location : String := ""
  notes : String := ""
  hashBefore : Option String := none
  hashAfter : Option String := none
deriving DecidableEq, Repr

/-! ### Trust Score Calculator (`PostgreSQLStorage`) -/

/-- The tier → base-trust-score table of `calculateTrustScore`
(`Record<EvidenceTier, number>`); `none` for keys outside the table. -/
def trustTierScore (tier : String) : Option ℚ :=
  if tier = "SELF_AUTHENTICATING" then some (mkRat 99 100)
  else if tier = "GOVERNMENT" then some (mkRat 95 100)
  else if tier = "FINANCIAL_INSTITUTION" then some (mkRat 90 100)
  else if tier = "INDEPENDENT_THIRD_PARTY" then some (mkRat 80 100)
  else if tier = "BUSINESS_RECORDS" then some (mkRat 70 100)
  else if tier = "FIRST_PARTY_ADVERSE" then some (mkRat 60 100)
  else if tier = "FIRST_PARTY_FRIENDLY" then some (mkRat 40 100)
  else if tier = "UNCORROBORATED_PERSON" then some (mkRat 20 100)
  else none

/-- Model of `calculateTrustScore(tier) = scores[tier].toFixed(2)`.  On a tier
outside the table the JS code dereferences `undefined` and throws a
`TypeError`; that failure is modelled by `none`. -/
def calculateTrustScore (tier : String) : Option String :=
  (trustTierScore tier).map toFixed2

/-- The non-minted branch of `calculateCurrentTrustScore`:
`max(0, originalTrustScore - degradationRate * hoursElapsed)`,
serialized with `toFixed(2)`.  `"NaN"` models the JS outcome when a
stored numeric string fails to parse. -/
def decayedTrustScore (e : Evidence) (now : Int) : String :=
  let hoursElapsed : ℚ := qDiv ((now - e.lastTrustUpdate : Int) : ℚ) ((1000 * 60 * 60 : Nat) : ℚ)
  match parseFloatQ e.originalTrustScore,
        parseFloatQ (e.trustDegradationRate.getD "0.0001") with
  | some originalTrust, some degradationRate =>
    toFixed2 (qMax 0 (qSub originalTrust (qMul degradationRate hoursElapsed)))
  | _, _ => "NaN"

/-- Model of `calculateCurrentTrustScore` for an existing evidence row: the
frozen `trustScore` when `status === "MINTED" && mintedAt`, otherwise
the linear decay from `originalTrustScore`. -/
def calculateCurrentTrustScore (e : Evidence) (now : Int) : String :=
  if e.status = "MINTED" && e.mintedAt.isSome then e.trustScore
  else decayedTrustScore e now

/-- The `updateEvidence` payload of `mintEvidence(id, blockNumber,
hashValue)`, applied to the stored row; `t` is the wall clock at the
mint (`new Date()`). -/
def mintEvidence (e : Evidence) (blockNumber hashValue : String) (t : Int) : Evidence :=
  let currentTrust := calculateCurrentTrustScore e t
  { e with
      status := "MINTED"
      blockNumber := some blockNumber
      hashValue := some hashValue
      mintedAt := some t
      trustScore := currentTrust
      trustDegradationRate := some "0.0000"
      lastTrustUpdate := t
      mintingEligible := true
      mintingScore := "1.00" }

/-! ### Minting Eligibility Scorer (6-axis) -/

/-- The tier → source-points table of `calculateMintingEligibility`
(`Record<string, number>`); `none` for keys outside the table (the
caller applies the `|| 0` fallback). -/
def mintTierScore (tier : String) : Option Nat :=
  if tier = "SELF_AUTHENTICATING" then some 20
  else if tier = "GOVERNMENT" then some 18
  else if tier = "FINANCIAL_INSTITUTION" then some 16
  else if tier = "INDEPENDENT_THIRD_PARTY" then some 12
  else if tier = "BUSINESS_RECORDS" then some 8
  else if tier = "FIRST_PARTY_ADVERSE" then some 4
  else if tier = "FIRST_PARTY_FRIENDLY" then some 2
  else if tier = "UNCORROBORATED_PERSON" then some 0
  else none

structure SixDScores where
  source : Nat
  time : Nat
  chain : Nat
  network : Nat
  outcomes : Nat
  justice : Nat
deriving DecidableEq, Repr

structure MintingEligibility where
  eligible : Bool
  score : String
  reasons : List String
  sixDScores : SixDScores
deriving DecidableEq, Repr

/-- SOURCE axis: `tierScores[evidence.evidenceTier] || 0`. -/
def sourceAxis (e : Evidence) : Nat :=
  (mintTierScore e.evidenceTier).getD 0

/-- Age of the evidence in hours at query time. -/
def ageHoursQ (e : Evidence) (now : Int) : ℚ :=
  qDiv ((now - e.uploadedAt : Int) : ℚ) ((1000 * 60 * 60 : Nat) : ℚ)

/-- TIME axis of `calculateMintingEligibility`. -/
def timeAxis (e : Evidence) (now : Int) : Nat :=
  if ageHoursQ e now < 24 then 15
  else if ageHoursQ e now < 168 then 12
  else if ageHoursQ e now < 720 then 8
  else 0

/-- CHAIN axis of `calculateMintingEligibility`. -/
def chainAxis (custodyRecords : List ChainOfCustody) : Nat :=
  if 3 ≤ custodyRecords.length then 15
  else if 1 ≤ custodyRecords.length then 10
  else 0

/-- NETWORK axis of `calculateMintingEligibility`. -/
def networkAxis (e : Evidence) : Nat :=
  if 3 ≤ e.corroborationCount.getD 0 then 20
  else if 2 ≤ e.corroborationCount.getD 0 then 15
  else if 1 ≤ e.corroborationCount.getD 0 then 8
  else 0

/-- OUTCOMES axis of `calculateMintingEligibility`. -/
def outcomesAxis (e : Evidence) : Nat :=
  if e.status = "VERIFIED" || e.status = "MINTED" then 15
  else if e.status = "REQUIRES_CORROBORATION" then 5
  else 0

/-- JUSTICE axis of `calculateMintingEligibility`. -/
def justiceAxis (e : Evidence) : Nat :=
  if e.conflictCount.getD 0 = 0 then 15
  else if e.conflictCount.getD 0 = 1 then 8
  else 0

/-- Sum of the six capped axis scores (`Object.values(sixDScores)
.reduce((sum, score) => sum + score, 0)`). -/
def sixAxisTotal (e : Evidence) (custodyRecords : List ChainOfCustody) (now : Int) : Nat :=
  sourceAxis e + timeAxis e now + chainAxis custodyRecords + networkAxis e +
    outcomesAxis e + justiceAxis e

/-- Model of `calculateMintingEligibility` on an existing evidence row, with its
custody records and the wall clock; mirrors the source line by line
(per-axis score and ✓/✗ reason, composite `totalScore / 100`,
`eligible = finalScore >= 0.70`, `score = finalScore.toFixed(2)`). -/
def calculateMintingEligibility (e : Evidence) (custodyRecords : List ChainOfCustody)
    (now : Int) : MintingEligibility :=
  let source := (mintTierScore e.evidenceTier).getD 0
  let sourceReason :=
    if 16 ≤ source then "✓ Source: High-tier evidence (" ++ e.evidenceTier ++ ")"
    else if 8 ≤ source then "✓ Source: Acceptable tier (" ++ e.evidenceTier ++ ")"
    else "✗ Source: Low-tier evidence (" ++ e.evidenceTier ++ ")"
  let ageHours : ℚ := qDiv ((now - e.uploadedAt : Int) : ℚ) ((1000 * 60 * 60 : Nat) : ℚ)
  let timePair : Nat × String :=
    if ageHours < 24 then (15, "✓ Time: Very recent evidence (<24h)")
    else if ageHours < 168 then (12, "✓ Time: Recent evidence (<1 week)")
    else if ageHours < 720 then (8, "✓ Time: Moderately recent (<30 days)")
    else (0, "✗ Time: Evidence is old (>30 days)")
  let chainPair : Nat × String :=
    if 3 ≤ custodyRecords.length then (15, "✓ Chain: Complete custody tracking")
    else if 1 ≤ custodyRecords.length then (10, "✓ Chain: Basic custody tracking")
    else (0, "✗ Chain: No custody tracking")
  let corroborationCount := e.corroborationCount.getD 0
  let networkPair : Nat × String :=
    if 3 ≤ corroborationCount then
      (20, "✓ Network: Strong corroboration (" ++ Nat.repr corroborationCount ++ " sources)")
    else if 2 ≤ corroborationCount then
      (15, "✓ Network: Good corroboration (" ++ Nat.repr corroborationCount ++ " sources)")
    else if 1 ≤ corroborationCount then
      (8, "✓ Network: Some corroboration (" ++ Nat.repr corroborationCount ++ " sources)")
    else (0, "✗ Network: No corroboration")
  let outcomesPair : Nat × String :=
    if e.status = "VERIFIED" || e.status = "MINTED" then (15, "✓ Outcomes: Evidence verified")
    else if e.status = "REQUIRES_CORROBORATION" then (5, "✗ Outcomes: Requires corroboration")
    else (0, "✗ Outcomes: Not verified")
  let conflictCount := e.conflictCount.getD 0
  let justicePair : Nat × String :=
    if conflictCount = 0 then (15, "✓ Justice: No conflicts detected")
    else if conflictCount = 1 then (8, "✗ Justice: Minor conflicts present")
    else (0, "✗ Justice: Multiple conflicts (" ++ Nat.repr conflictCount ++ ")")
  let sixD : SixDScores :=
    ⟨source, timePair.1, chainPair.1, networkPair.1, outcomesPair.1, justicePair.1⟩
  let totalScore := sixD.source + sixD.time + sixD.chain + sixD.network +
    sixD.outcomes + sixD.justice
  let finalScore : ℚ := qDiv (totalScore : ℚ) 100
  { eligible := decide (mkRat 7 10 ≤ finalScore)
    score := toFixed2 finalScore
    reasons := [sourceReason, timePair.2, chainPair.2, networkPair.2,
      outcomesPair.2, justicePair.2]
    sixDScores := sixD }

/-! ### Scientific (Bayesian) Trust Assessor (`scientific-trust-scoring.ts`) -/

/-- The six quality metrics of the Evidence Quality Assessment
Framework, all in `[0,1]`. -/
structure EvidenceQualityMetrics where
  integrity : ℚ
  authenticity : ℚ
  reliability : ℚ
  completeness : ℚ
  admissibility : ℚ
  temporalRelevance : ℚ
deriving DecidableEq, Repr

/-- The seven `likelihoodWeights` constants of
`BayesianEvidenceAssessment`. -/
structure LikelihoodWeights where
  integrityVerified : ℚ
  chainOfCustody : ℚ
  sourceAuthenticity : ℚ
  temporalConsistency : ℚ
  corroboration : ℚ
  expertValidation : ℚ
  technicalCompliance : ℚ
deriving DecidableEq, Repr

def likelihoodWeights : LikelihoodWeights :=
  { integrityVerified := mkRat 20 100
    chainOfCustody := mkRat 18 100
    sourceAuthenticity := mkRat 16 100
    temporalConsistency := mkRat 14 100
    corroboration := mkRat 12 100
    expertValidation := mkRat 10 100
    technicalCompliance := mkRat 10 100 }

/-- Model of `BayesianEvidenceAssessment.calculateLikelihood`, term by term as in
the source (note which weight is paired with which metric, and that
`likelihoodWeights.chainOfCustody` does not occur). -/
def calculateLikelihood (metrics : EvidenceQualityMetrics) : ℚ :=
  qAdd (qMul metrics.integrity likelihoodWeights.integrityVerified)
    (qAdd (qMul metrics.authenticity likelihoodWeights.sourceAuthenticity)
      (qAdd (qMul metrics.reliability likelihoodWeights.corroboration)
        (qAdd (qMul metrics.completeness likelihoodWeights.technicalCompliance)
          (qAdd (qMul metrics.admissibility likelihoodWeights.expertValidation)
            (qMul metrics.temporalRelevance likelihoodWeights.temporalConsistency)))))

/-- The `priorProbabilities` table; `none` for keys outside it (the
call site applies the `|| 0.5` fallback). -/
def priorProbability (tier : String) : Option ℚ :=
  if tier = "SELF_AUTHENTICATING" then some (mkRat 95 100)
  else if tier = "GOVERNMENT" then some (mkRat 92 100)
  else if tier = "FINANCIAL_INSTITUTION" then some (mkRat 88 100)
  else if tier = "INDEPENDENT_THIRD_PARTY" then some (mkRat 75 100)
  else if tier = "BUSINESS_RECORDS" then some (mkRat 70 100)
  else if tier = "FIRST_PARTY_ADVERSE" then some (mkRat 60 100)
  else if tier = "FIRST_PARTY_FRIENDLY" then some (mkRat 45 100)
  else if tier = "UNCORROBORATED_PERSON" then some (mkRat 25 100)
  else none

/-- The prior lookup of `calculateBayesianTrustScore`:
`this.priorProbabilities[evidence.evidenceTier ...] || 0.5`. -/
def bayesianPrior (tier : String) : ℚ :=
  (priorProbability tier).getD (mkRat 1 2)

/-- Model of `bayesianUpdate(prior, likelihood)`. -/
def bayesianUpdate (prior likelihood : ℚ) : ℚ :=
  let marginal := qAdd (qMul likelihood prior) (qMul (qSub 1 likelihood) (qSub 1 prior))
  qDiv (qMul likelihood prior) marginal

/-- The posterior `score` of `calculateBayesianTrustScore` (the
confidence/error-bound fields are outside the scope of the claims). -/
def bayesianScore (e : Evidence) (metrics : EvidenceQualityMetrics) : ℚ :=
  bayesianUpdate (bayesianPrior e.evidenceTier) (calculateLikelihood metrics)

/-- The `tierScores` table of
`EvidenceQualityCalculator.calculateAuthenticityScore`; `none` for keys
outside it (the call site applies the `|| 0.5` fallback). -/
def authenticityTierScore (tier : String) : Option ℚ :=
  if tier = "SELF_AUTHENTICATING" then some 1
  else if tier = "GOVERNMENT" then some (mkRat 95 100)
  else if tier = "FINANCIAL_INSTITUTION" then some (mkRat 85 100)
  else if tier = "INDEPENDENT_THIRD_PARTY" then some (mkRat 75 100)
  else if tier = "BUSINESS_RECORDS" then some (mkRat 65 100)
  else if tier = "FIRST_PARTY_ADVERSE" then some (mkRat 55 100)
  else if tier = "FIRST_PARTY_FRIENDLY" then some (mkRat 35 100)
  else if tier = "UNCORROBORATED_PERSON" then some (mkRat 25 100)
  else none

/-- Model of `calculateAuthenticityScore(evidence) = tierScores[tier] || 0.5`. -/
def calculateAuthenticityScore (e : Evidence) : ℚ :=
  (authenticityTierScore e.evidenceTier).getD (mkRat 1 2)

/-! ### Contradiction Detection Engine (`contradiction-detection.ts`)

The regex helpers are hand-compiled scanners over `List Char` with the
same backtracking order as the JS engine (alternations leftmost-first,
greedy quantifiers); `\\b` is the JS word boundary.
-/

/-- Word boundary before the current position, given the previous
character (`none` at the start of the string). -/
def wordBoundary (prev : Option Char) : Bool :=
  match prev with
  | none => true
  | some c => !isWordC c

/-- Word boundary right after a match whose last character is `last`,
given the rest of the input. -/
def boundaryAfter (last : Char) (rest : List Char) : Bool :=
  match rest with
  | [] => isWordC last
  | c :: _ => isWordC last != isWordC c

/-- First `some` produced by `f` along the list. -/
def firstSome {α β : Type} (l : List α) (f : α → Option β) : Option β :=
  match l with
  | [] => none
  | a :: rest =>
    match f a with
    | some b => some b
    | none => firstSome rest f

/-- Model of `[0-9]{1,2}` with its two greedy alternatives (two digits first),
returning value and rest. -/
def take12Digits (cs : List Char) : List (Nat × List Char) :=
  match cs with
  | a :: rest1 =>
    if a.isDigit then
      match rest1 with
      | b :: rest2 =>
        if b.isDigit then
          [(10 * (a.toNat - 48) + (b.toNat - 48), rest2), (a.toNat - 48, rest1)]
        else [(a.toNat - 48, rest1)]
      | [] => [(a.toNat - 48, [])]
    else []
  | [] => []

/-- Model of `[\\/\\-]` — the date separator class. -/
def isDateSep (c : Char) : Bool := c = '/' || c = '-'

/-- Model of `[0-9]{4}`. -/
def take4Digits (cs : List Char) : Option (Nat × List Char) :=
  match cs with
  | a :: b :: c :: d :: rest =>
    if a.isDigit && b.isDigit && c.isDigit && d.isDigit then
      some (1000 * (a.toNat - 48) + 100 * (b.toNat - 48) + 10 * (c.toNat - 48) +
        (d.toNat - 48), rest)
    else none
  | _ => none

/-- Model of `[0-9]{2}`. -/
def take2Digits (cs : List Char) : Option (Nat × List Char) :=
  match cs with
  | a :: b :: rest =>
    if a.isDigit && b.isDigit then some (10 * (a.toNat - 48) + (b.toNat - 48), rest)
    else none
  | _ => none

/-- A match of `([0-9]{1,2})[\\/\\-]([0-9]{1,2})[\\/\\-]([0-9]{4})\\b` starting
at the current position (the leading `\\b` is checked by the caller),
yielding `new Date(y, m - 1, d).getTime()`. -/
def matchSlashDateAt (cs : List Char) : Option Int :=
  firstSome (take12Digits cs) (fun mr =>
    match mr.2 with
    | s1 :: rest1 =>
      if isDateSep s1 then
        firstSome (take12Digits rest1) (fun dr =>
          match dr.2 with
          | s2 :: rest2 =>
            if isDateSep s2 then
              match take4Digits rest2 with
              | some (y, rest3) =>
                match rest3 with
                | [] => some (jsDateMs y ((mr.1 : Int) - 1) dr.1)
                | c :: _ =>
                  if isWordC c then none else some (jsDateMs y ((mr.1 : Int) - 1) dr.1)
              | none => none
            else none
          | [] => none)
      else none
    | [] => none)

/-- A match of `([0-9]{4})-([0-9]{2})-([0-9]{2})\\b` starting at the
current position, yielding `new Date(y, m - 1, d).getTime()`. -/
def matchIsoDateAt (cs : List Char) : Option Int :=
  match take4Digits cs with
  | some (y, rest1) =>
    match rest1 with
    | '-' :: rest2 =>
      match take2Digits rest2 with
      | some (m, rest3) =>
        match rest3 with
        | '-' :: rest4 =>
          match take2Digits rest4 with
          | some (d, rest5) =>
            match rest5 with
            | [] => some (jsDateMs y ((m : Int) - 1) d)
            | c :: _ => if isWordC c then none else some (jsDateMs y ((m : Int) - 1) d)
          | none => none
        | _ => none
      | none => none
    | _ => none
  | none => none

/-- First match of a position-wise matcher over the string (the
`String.prototype.match` search), tracking the word boundary. -/
def scanFirst {α : Type} (m : List Char → Option α) :
    Option Char → List Char → Option α
  | prev, cs =>
    match cs with
    | [] => if wordBoundary prev then m [] else none
    | c :: rest =>
      if wordBoundary prev then
        match m (c :: rest) with
        | some a => some a
        | none => scanFirst m (some c) rest
      else scanFirst m (some c) rest

/-- Model of `ContradictionDetectionEngine.parseDate`: try the `M/D/YYYY` form
anywhere in the content, then the ISO form; `none` when neither
matches (the "unparseable date degrades silently" contract). -/
def parseDateMs (content : String) : Option Int :=
  match scanFirst matchSlashDateAt none content.toList with
  | some t => some t
  | none => scanFirst matchIsoDateAt none content.toList

/-- First match of `[\\$]?([0-9,]+(?:\\.[0-9]{2})?)` — the capture of
`extractNumber`; a leading `$` only shifts the match start, never the
capture. -/
def numberCapture : List Char → Option (List Char)
  | [] => none
  | c :: rest =>
    if isNumC c then
      let run := (c :: rest).takeWhile isNumC
      let after := (c :: rest).drop run.length
      match after with
      | '.' :: d1 :: d2 :: _ =>
        if d1.isDigit && d2.isDigit then some (run ++ ['.', d1, d2]) else some run
      | _ => some run
    else numberCapture rest

/-- Model of `ContradictionDetectionEngine.extractNumber`:
`parseFloat(match[1].replace(/,/g, ''))`; a capture that parses to
`NaN` (only possible for a bare-comma capture) is folded into `none`,
which leads to the same "no contradiction" outcome as `NaN`
comparisons in JS. -/
def extractNumberQ (content : String) : Option ℚ :=
  match numberCapture content.toList with
  | some cap => parseUnsignedQ (cap.filter (fun c => c != ','))
  | none => none

inductive ContradictionType where
  | TEMPORAL
  | FACTUAL
  | NUMERICAL
  | IDENTITY
  | LOCATION
  | LOGICAL
  | CAUSAL
  | METADATA
deriving DecidableEq, Repr

inductive ContradictionSeverity where
  | low
  | medium
  | high
  | critical
deriving DecidableEq, Repr

/-- Model of `ContradictionResult` (the free-form `metadata` record, which only
repeats values already present in the other fields, is not modelled).
The source field `type` is called `rtype` here (`type` is reserved). -/
structure ContradictionResult where
  rtype : ContradictionType
  severity : ContradictionSeverity
  descriptionField : String
  confidence : ℚ
  evidence1Id : String
  evidence2Id : String
deriving DecidableEq, Repr

def minimumConfidence : ℚ := mkRat 7 10

def temporalToleranceHours : ℚ := 1

def simultaneousIndicators : List String :=
  ["payment", "signature", "meeting", "incident", "accident"]

/-- Model of `shouldBeSimultaneous`. -/
def shouldBeSimultaneous (fact1 fact2 : AtomicFact) : Bool :=
  let content1 := toLowerStr fact1.content
  let content2 := toLowerStr fact2.content
  simultaneousIndicators.any (fun indicator =>
    containsSub content1 indicator && containsSub content2 indicator)

/-- Model of `calculateTemporalSeverity`. -/
def calculateTemporalSeverity (hoursDiff : ℚ) : ContradictionSeverity :=
  if ((24 * 365 : Nat) : ℚ) < hoursDiff then .critical
  else if ((24 * 30 : Nat) : ℚ) < hoursDiff then .high
  else if (24 : ℚ) < hoursDiff then .medium
  else .low

/-- Model of `compareTemporalFacts`. -/
def compareTemporalFacts (fact1 fact2 : AtomicFact) (evidence1 evidence2 : Evidence) :
    Option ContradictionResult :=
  match parseDateMs fact1.content, parseDateMs fact2.content with
  | some date1, some date2 =>
    let hoursDiff : ℚ := qDiv ((|date1 - date2| : Int) : ℚ) ((1000 * 60 * 60 : Nat) : ℚ)
    if shouldBeSimultaneous fact1 fact2 && decide (temporalToleranceHours < hoursDiff) then
      some { rtype := .TEMPORAL
             severity := calculateTemporalSeverity hoursDiff
             descriptionField := "Temporal impossibility: Events cannot occur at different times - "
               ++ fact1.content ++ " vs " ++ fact2.content
             confidence := mkRat 9 10
             evidence1Id := evidence1.id
             evidence2Id := evidence2.id }
    else none
  | _, _ => none

def negationPairs : List (String × String) :=
  [("did", "did not"), ("was", "was not"), ("will", "will not"), ("can", "cannot"),
    ("present", "absent"), ("guilty", "innocent"), ("true", "false")]

/-- JS `Set`-based word sets of `calculateSemanticSimilarity`: the
pieces of `split(/\\s+/)` (which keeps an empty piece at a boundary
separator, as JS does). -/
def splitWsPieces : List Char → List Char → List String
  | [], acc => [String.mk acc.reverse]
  | c :: rest, acc =>
    if isWS c then String.mk acc.reverse :: splitWsSkip rest
    else splitWsPieces rest (c :: acc)
where
  /-- Continue after a separator run. -/
  splitWsSkip : List Char → List String
  | [] => [""]
  | c :: rest => if isWS c then splitWsSkip rest else splitWsPieces rest [c]

/-- Model of `calculateSemanticSimilarity`: Jaccard index of the word sets. -/
def calculateSemanticSimilarity (text1 text2 : String) : ℚ :=
  let words1 := (splitWsPieces text1.toList []).toFinset
  let words2 := (splitWsPieces text2.toList []).toFinset
  qDiv (((words1 ∩ words2).card : Nat) : ℚ) (((words1 ∪ words2).card : Nat) : ℚ)

def oppositeWords : List (String × String) :=
  [("present", "absent"), ("alive", "dead"), ("guilty", "innocent"),
    ("before", "after"), ("inside", "outside")]

/-- Model of `hasOppositeImplication`. -/
def hasOppositeImplication (text1 text2 : String) : Bool :=
  oppositeWords.any (fun pr =>
    (containsSub text1 pr.1 && containsSub text2 pr.2) ||
    (containsSub text1 pr.2 && containsSub text2 pr.1))

/-- Model of `compareStatements`: the direct-negation loop (first matching pair
returns), then the semantic-similarity branch. -/
def compareStatements (stmt1 stmt2 : AtomicFact) (evidence1 evidence2 : Evidence) :
    Option ContradictionResult :=
  let content1 := toLowerStr stmt1.content
  let content2 := toLowerStr stmt2.content
  if negationPairs.any (fun pr =>
      (containsSub content1 pr.1 && containsSub content2 pr.2) ||
      (containsSub content1 pr.2 && containsSub content2 pr.1)) then
    some { rtype := .FACTUAL
           severity := .high
           descriptionField := "Direct factual contradiction detected: \"" ++ stmt1.content
             ++ "\" vs \"" ++ stmt2.content ++ "\""
           confidence := mkRat 85 100
           evidence1Id := evidence1.id
           evidence2Id := evidence2.id }
  else
    let similarity := calculateSemanticSimilarity content1 content2
    if decide (mkRat 7 10 < similarity) && hasOppositeImplication content1 content2 then
      some { rtype := .FACTUAL
             severity := .medium
             descriptionField := "Semantic contradiction detected: \"" ++ stmt1.content
               ++ "\" vs \"" ++ stmt2.content ++ "\""
             confidence := mkRat 75 100
             evidence1Id := evidence1.id
             evidence2Id := evidence2.id }
    else none

/-- Model of `shouldBeEqualAmounts`. -/
def shouldBeEqualAmounts (fact1 fact2 : AtomicFact) : Bool :=
  let content1 := toLowerStr fact1.content
  let content2 := toLowerStr fact2.content
  (containsSub content1 "payment" && containsSub content2 "payment") ||
  (containsSub content1 "invoice" && containsSub content2 "invoice") ||
  (containsSub content1 "amount" && containsSub content2 "amount")

/-- Model of `compareNumericalFacts`: difference relative to the larger amount,
5% trigger threshold, 50% high-severity threshold. -/
def compareNumericalFacts (fact1 fact2 : AtomicFact) (evidence1 evidence2 : Evidence) :
    Option ContradictionResult :=
  match extractNumberQ fact1.content, extractNumberQ fact2.content with
  | some amount1, some amount2 =>
    if shouldBeEqualAmounts fact1 fact2 then
      let difference := qAbs (qSub amount1 amount2)
      let percentDiff := qMul (qDiv difference (qMax amount1 amount2)) 100
      if decide ((5 : ℚ) < percentDiff) then
        some { rtype := .NUMERICAL
               severity := if (50 : ℚ) < percentDiff then .high else .medium
               descriptionField := "Numerical discrepancy: " ++ fact1.content ++ " vs "
                 ++ fact2.content ++ " (" ++ toFixed1 percentDiff ++ "% difference)"
               confidence := mkRat 9 10
               evidence1Id := evidence1.id
               evidence2Id := evidence2.id }
      else none
    else none
  | _, _ => none

def locationStopWords : List String := ["street", "st", "avenue", "ave", "road", "rd"]

/-- One step of the global replace
`replace(/\\b(street|st|avenue|ave|road|rd)\\b/gi, '')`: at a word
boundary, try the alternatives leftmost-first and require a boundary
after the keyword. -/
def tryLocationWord (cs : List Char) : Option (List Char) :=
  firstSome locationStopWords (fun w =>
    let wl := w.toList
    if startsWithL wl cs then
      let rest := cs.drop wl.length
      match rest with
      | [] => some rest
      | c :: _ => if isWordC c then none else some rest
    else none)

/-- The full global replace (the keywords are already lowercase and the
inputs are lowercased by the caller, so case-insensitivity is literal
matching here). -/
def stripLocationWords (fuel : Nat) (prevIsWord : Bool) (cs : List Char) : List Char :=
  match fuel, cs with
  | 0, rest => rest
  | _, [] => []
  | fuel + 1, c :: rest =>
    if !prevIsWord then
      match tryLocationWord (c :: rest) with
      | some after => stripLocationWords fuel true after
      | none => c :: stripLocationWords fuel (isWordC c) rest
    else c :: stripLocationWords fuel (isWordC c) rest

/-- Model of `areLocationsSimilar`. -/
def areLocationsSimilar (loc1 loc2 : String) : Bool :=
  let normalized1 := trimStr (String.mk (stripLocationWords loc1.toList.length false loc1.toList))
  let normalized2 := trimStr (String.mk (stripLocationWords loc2.toList.length false loc2.toList))
  containsSub normalized1 normalized2 || containsSub normalized2 normalized1

/-- Model of `shouldBeSameLocation` — `return true; // Simplified`. -/
def shouldBeSameLocation (_loc1 _loc2 : AtomicFact) : Bool := true

/-- Model of `compareLocations`. -/
def compareLocations (loc1 loc2 : AtomicFact) (evidence1 evidence2 : Evidence) :
    Option ContradictionResult :=
  let location1 := toLowerStr loc1.content
  let location2 := toLowerStr loc2.content
  if shouldBeSameLocation loc1 loc2 && !areLocationsSimilar location1 location2 then
    some { rtype := .LOCATION
           severity := .high
           descriptionField := "Location contradiction: Same event reported at different locations - "
             ++ loc1.content ++ " vs " ++ loc2.content
           confidence := mkRat 8 10
           evidence1Id := evidence1.id
           evidence2Id := evidence2.id }
  else none

/-- Model of `shouldHaveSimilarTrustScores`. -/
def shouldHaveSimilarTrustScores (evidence1 evidence2 : Evidence) : Bool :=
  decide (evidence1.evidenceTier = evidence2.evidenceTier) &&
  decide (evidence1.caseId = evidence2.caseId)

/-- The trust-score-discrepancy rule of `detectMetadataContradictions`
(same tier and case, gap `> 0.3`). -/
def metadataTrustPart (evidence1 evidence2 : Evidence) : List ContradictionResult :=
  if shouldHaveSimilarTrustScores evidence1 evidence2 then
    match parseFloatQ evidence1.trustScore, parseFloatQ evidence2.trustScore with
    | some trust1, some trust2 =>
      let difference := qAbs (qSub trust1 trust2)
      if decide (mkRat 3 10 < difference) then
        [{ rtype := .METADATA
           severity := .medium
           descriptionField := "Significant trust score discrepancy: "
             ++ evidence1.trustScore ++ " vs " ++ evidence2.trustScore
           confidence := mkRat 8 10
           evidence1Id := evidence1.id
           evidence2Id := evidence2.id }]
      else []
    | _, _ => []
  else []

/-- The same-uploader-within-an-hour rule of
`detectMetadataContradictions`. -/
def metadataUploadPart (evidence1 evidence2 : Evidence) : List ContradictionResult :=
  let hoursDiff : ℚ :=
    qDiv ((|evidence1.uploadedAt - evidence2.uploadedAt| : Int) : ℚ) ((1000 * 60 * 60 : Nat) : ℚ)
  if decide (hoursDiff < 1) && decide (evidence1.uploadedBy = evidence2.uploadedBy) then
    [{ rtype := .METADATA
       severity := .high
       descriptionField := "Same user uploaded potentially conflicting evidence within one hour"
       confidence := mkRat 75 100
       evidence1Id := evidence1.id
       evidence2Id := evidence2.id }]
  else []

/-- Model of `detectMetadataContradictions`: the two metadata rules in source
order. -/
def detectMetadataContradictions (evidence1 evidence2 : Evidence) :
    List ContradictionResult :=
  metadataTrustPart evidence1 evidence2 ++ metadataUploadPart evidence1 evidence2

/-- Model of `detectImpossibleSequences` — baseline no-op hook. -/
def detectImpossibleSequences (_e1 _e2 : Evidence) (_f1 _f2 : List AtomicFact) :
    List ContradictionResult := []

/-- Model of `detectRoleConflicts` — baseline no-op hook. -/
def detectRoleConflicts (_p1 _p2 : List AtomicFact) : List ContradictionResult := []

/-- Model of `detectPhysicalImpossibilities` — baseline no-op hook. -/
def detectPhysicalImpossibilities (_e1 _e2 : Evidence) : List ContradictionResult := []

/-- Model of `detectCausalImpossibilities` — baseline no-op hook. -/
def detectCausalImpossibilities (_e1 _e2 : Evidence) : List ContradictionResult := []

/-- Model of `detectTemporalContradictions`: all DATE × DATE pairs. -/
def detectTemporalContradictions (evidence1 evidence2 : Evidence)
    (facts1 facts2 : List AtomicFact) : List ContradictionResult :=
  let dates1 := facts1.filter (fun f => decide (f.factType = "DATE"))
  let dates2 := facts2.filter (fun f => decide (f.factType = "DATE"))
  (dates1.flatMap fun date1 =>
    dates2.filterMap fun date2 => compareTemporalFacts date1 date2 evidence1 evidence2) ++
  detectImpossibleSequences evidence1 evidence2 facts1 facts2

/-- Model of `detectFactualContradictions`: all STATEMENT × STATEMENT pairs. -/
def detectFactualContradictions (evidence1 evidence2 : Evidence)
    (facts1 facts2 : List AtomicFact) : List ContradictionResult :=
  let statements1 := facts1.filter (fun f => decide (f.factType = "STATEMENT"))
  let statements2 := facts2.filter (fun f => decide (f.factType = "STATEMENT"))
  statements1.flatMap fun stmt1 =>
    statements2.filterMap fun stmt2 => compareStatements stmt1 stmt2 evidence1 evidence2

/-- Model of `detectNumericalContradictions`: all (AMOUNT|TRANSACTION) pairs. -/
def detectNumericalContradictions (evidence1 evidence2 : Evidence)
    (facts1 facts2 : List AtomicFact) : List ContradictionResult :=
  let amounts1 := facts1.filter
    (fun f => decide (f.factType = "AMOUNT") || decide (f.factType = "TRANSACTION"))
  let amounts2 := facts2.filter
    (fun f => decide (f.factType = "AMOUNT") || decide (f.factType = "TRANSACTION"))
  amounts1.flatMap fun amount1 =>
    amounts2.filterMap fun amount2 => compareNumericalFacts amount1 amount2 evidence1 evidence2

/-- Model of `detectIdentityContradictions`. -/
def detectIdentityContradictions (_evidence1 _evidence2 : Evidence)
    (facts1 facts2 : List AtomicFact) : List ContradictionResult :=
  let persons1 := facts1.filter (fun f => decide (f.factType = "PERSON"))
  let persons2 := facts2.filter (fun f => decide (f.factType = "PERSON"))
  detectRoleConflicts persons1 persons2

/-- Model of `detectLocationContradictions`: all LOCATION × LOCATION pairs. -/
def detectLocationContradictions (evidence1 evidence2 : Evidence)
    (facts1 facts2 : List AtomicFact) : List ContradictionResult :=
  let locations1 := facts1.filter (fun f => decide (f.factType = "LOCATION"))
  let locations2 := facts2.filter (fun f => decide (f.factType = "LOCATION"))
  locations1.flatMap fun loc1 =>
    locations2.filterMap fun loc2 => compareLocations loc1 loc2 evidence1 evidence2

/-- Model of `detectLogicalContradictions`. -/
def detectLogicalContradictions (evidence1 evidence2 : Evidence) :
    List ContradictionResult :=
  detectPhysicalImpossibilities evidence1 evidence2 ++
  detectCausalImpossibilities evidence1 evidence2

/-- Model of `detectContradictions` before the confidence filter: the seven
detector families in source order. -/
def detectContradictionsAll (evidence1 evidence2 : Evidence)
    (facts1 facts2 : List AtomicFact) : List ContradictionResult :=
  detectTemporalContradictions evidence1 evidence2 facts1 facts2 ++
  detectFactualContradictions evidence1 evidence2 facts1 facts2 ++
  detectNumericalContradictions evidence1 evidence2 facts1 facts2 ++
  detectIdentityContradictions evidence1 evidence2 facts1 facts2 ++
  detectLocationContradictions evidence1 evidence2 facts1 facts2 ++
  detectLogicalContradictions evidence1 evidence2 ++
  detectMetadataContradictions evidence1 evidence2

/-- Model of `ContradictionDetectionEngine.detectContradictions`: run the seven
detectors and keep the results with `confidence >= 0.7`. -/
def detectContradictions (evidence1 evidence2 : Evidence)
    (facts1 facts2 : List AtomicFact) : List ContradictionResult :=
  (detectContradictionsAll evidence1 evidence2 facts1 facts2).filter
    (fun c => decide (minimumConfidence ≤ c.confidence))

/-- Swap only the two evidence-id fields of a result. -/
def swapIds (r : ContradictionResult) : ContradictionResult :=
  { r with evidence1Id := r.evidence2Id, evidence2Id := r.evidence1Id }

/-- The order-insensitive projection of a result: type, severity,
confidence, and the unordered pair of evidence ids. -/
structure ContradictionKey where
  rtype : ContradictionType
  severity : ContradictionSeverity
  confidence : ℚ
  ids : Multiset String
deriving DecidableEq

def keyOf (r : ContradictionResult) : ContradictionKey :=
  { rtype := r.rtype
    severity := r.severity
    confidence := r.confidence
    ids := {r.evidence1Id, r.evidence2Id} }

/-! ### Fact Extraction Engine (`fact-extraction.ts`)

Each regex family is a hand-compiled scanner with JS backtracking
order (alternations leftmost-first, optional groups and quantifiers
greedy).  `scanAll` is `RegExp.exec` with the `g` flag: it reports
`(data, index)` for every match, resuming after each match.
-/

/-- Model of `ExtractedFact` as produced by the engine (the `metadata` record,
which only repeats the raw match and position, is not modelled). -/
structure ExtractedFact where
  content : String
  factType : String
  confidenceScore : ℚ
  context : String := ""
  source : String := ""
deriving DecidableEq, Repr

/-- Model of `getContext(content, position, 50)`. -/
def getContext (content : String) (position : Nat) : String :=
  let cs := content.toList
  let start := position - 50
  let stop := min cs.length (position + 50)
  trimStr (String.mk ((cs.drop start).take (stop - start)))

/-- Global scan: run the position matcher (which receives the previous
character for `\b` and returns the match data and the rest after the
match) at every position from the current one, resuming after each
match like `exec` with `g`. -/
def scanAll {α : Type} (m : Option Char → List Char → Option (α × List Char)) :
    Nat → Option Char → Nat → List Char → List (α × Nat)
  | 0, _, _, _ => []
  | _ + 1, _, _, [] => []
  | fuel + 1, prev, pos, c :: rest =>
    match m prev (c :: rest) with
    | some (a, after) =>
      let k := (c :: rest).length - after.length
      if k = 0 then (a, pos) :: scanAll m fuel (some c) (pos + 1) rest
      else (a, pos) :: scanAll m fuel (((c :: rest).take k).getLast?) (pos + k) after
    | none => scanAll m fuel (some c) (pos + 1) rest

/-- Run a matcher over a whole string. -/
def scanString {α : Type} (m : Option Char → List Char → Option (α × List Char))
    (content : String) : List (α × Nat) :=
  scanAll m (content.toList.length + 1) none 0 content.toList

/-- Consume a literal (already lowercased) case-insensitively. -/
def dropCI : List Char → List Char → Option (List Char)
  | [], cs => some cs
  | _ :: _, [] => none
  | l :: ls, c :: cs => if c.toLower = l then dropCI ls cs else none

/-- Consume a literal case-sensitively. -/
def dropCS : List Char → List Char → Option (List Char)
  | [], cs => some cs
  | _ :: _, [] => none
  | l :: ls, c :: cs => if c = l then dropCS ls cs else none

/-- Model of `\s*`. -/
def wsStar (cs : List Char) : List Char := cs.dropWhile isWS

/-- Model of `\s+`. -/
def wsPlus (cs : List Char) : Option (List Char) :=
  match cs with
  | c :: rest => if isWS c then some (rest.dropWhile isWS) else none
  | [] => none

/-- The consumed part of a match, recovered from the rest after it. -/
def consumedStr (cs after : List Char) : String :=
  String.mk (cs.take (cs.length - after.length))

/-- Model of `[0-9,]+(?:\.[0-9]{2})?` — the amount capture. -/
def amountDigits (cs : List Char) : Option (List Char × List Char) :=
  let run := cs.takeWhile isNumC
  if run.isEmpty then none
  else
    let after := cs.drop run.length
    match after with
    | '.' :: d1 :: d2 :: rest2 =>
      if d1.isDigit && d2.isDigit then some (run ++ ['.', d1, d2], rest2)
      else some (run, after)
    | _ => some (run, after)

/-- Model of `\$([0-9,]+(?:\.[0-9]{2})?)`. -/
def matchAmountDollar (_prev : Option Char) (cs : List Char) :
    Option (String × List Char) :=
  match cs with
  | '$' :: rest => (amountDigits rest).map (fun p => (String.mk p.1, p.2))
  | _ => none

/-- Model of `USD?\s*([0-9,]+(?:\.[0-9]{2})?)` (case-insensitive). -/
def matchAmountUSD (_prev : Option Char) (cs : List Char) :
    Option (String × List Char) :=
  match dropCI ['u', 's'] cs with
  | some rest1 =>
    let withD : Option (String × List Char) :=
      match dropCI ['d'] rest1 with
      | some rest2 => (amountDigits (wsStar rest2)).map (fun p => (String.mk p.1, p.2))
      | none => none
    match withD with
    | some r => some r
    | none => (amountDigits (wsStar rest1)).map (fun p => (String.mk p.1, p.2))
  | none => none

/-- Model of `([0-9,]+(?:\.[0-9]{2})?\s*(?:dollars?|usd))` (case-insensitive);
the capture is the whole match. -/
def matchAmountWord (_prev : Option Char) (cs : List Char) :
    Option (String × List Char) :=
  match amountDigits cs with
  | some (_, rest1) =>
    let rest2 := wsStar rest1
    let afterSuffix :=
      match dropCI "dollar".toList rest2 with
      | some r3 =>
        match dropCI ['s'] r3 with
        | some r4 => some r4
        | none => some r3
      | none => dropCI "usd".toList rest2
    match afterSuffix with
    | some rest3 => some (consumedStr cs rest3, rest3)
    | none => none
  | none => none

/-- Model of `€([0-9,]+(?:\.[0-9]{2})?)`. -/
def matchAmountEuro (_prev : Option Char) (cs : List Char) :
    Option (String × List Char) :=
  match cs with
  | '€' :: rest => (amountDigits rest).map (fun p => (String.mk p.1, p.2))
  | _ => none

/-- Model of `£([0-9,]+(?:\.[0-9]{2})?)`. -/
def matchAmountPound (_prev : Option Char) (cs : List Char) :
    Option (String × List Char) :=
  match cs with
  | '£' :: rest => (amountDigits rest).map (fun p => (String.mk p.1, p.2))
  | _ => none

/-- Model of `([0-9]+(?:\.[0-9]+)?\s*%)`. -/
def matchPercentage (_prev : Option Char) (cs : List Char) :
    Option (String × List Char) :=
  let run := cs.takeWhile Char.isDigit
  if run.isEmpty then none
  else
    let after := cs.drop run.length
    let afterFrac :=
      match after with
      | '.' :: rest2 =>
        let fr := rest2.takeWhile Char.isDigit
        if fr.isEmpty then after else rest2.drop fr.length
      | _ => after
    match wsStar afterFrac with
    | '%' :: rest3 => some (consumedStr cs rest3, rest3)
    | _ => none

/-- Model of `calculateAmountConfidence`. -/
def calculateAmountConfidence (amount context : String) : ℚ :=
  let c0 : ℚ := mkRat 7 10
  let c1 :=
    if containsSub (toLowerStr context) "payment" ||
       containsSub (toLowerStr context) "invoice" ||
       containsSub (toLowerStr context) "bill" then qAdd c0 (mkRat 2 10) else c0
  let c2 :=
    if endsWithSub amount "00.00" || endsWithSub amount "000" then qSub c1 (mkRat 1 10)
    else c1
  qMax (mkRat 1 10) (if (1 : ℚ) < c2 then 1 else c2)

/-- Model of `extractAmounts`: the five currency patterns (in source order, all
tagged `currency_pattern`) followed by the percentage pattern. -/
def extractAmounts (content : String) : List ExtractedFact :=
  let currency := fun (m : Option Char → List Char → Option (String × List Char)) =>
    (scanString m content).map (fun am =>
      let context := getContext content am.2
      { content := "Amount: " ++ am.1
        factType := "AMOUNT"
        confidenceScore := calculateAmountConfidence am.1 context
        context := context
        source := "currency_pattern" : ExtractedFact })
  currency matchAmountDollar ++ currency matchAmountUSD ++ currency matchAmountWord ++
  currency matchAmountEuro ++ currency matchAmountPound ++
  (scanString matchPercentage content).map (fun pm =>
    { content := "Percentage: " ++ pm.1
      factType := "PERCENTAGE"
      confidenceScore := mkRat 85 100
      context := getContext content pm.2
      source := "percentage_pattern" })

/-- Greedy candidates (in backtracking order) for a two-or-one digit
class `[x]?[0-9]`, as the list of rests. -/
def digitPairRests (firstOk : Char → Bool) (cs : List Char) : List (List Char) :=
  match cs with
  | a :: b :: rest =>
    (if firstOk a && b.isDigit then [rest] else []) ++
    (if a.isDigit then [b :: rest] else [])
  | [a] => if a.isDigit then [[]] else []
  | [] => []

/-- Model of `[0-9]{4}`, as the rest. -/
def fourDigitRest (cs : List Char) : Option (List Char) :=
  match cs with
  | a :: b :: c :: d :: rest =>
    if a.isDigit && b.isDigit && c.isDigit && d.isDigit then some rest else none
  | _ => none

/-- Model of `\b` after a match ending in a digit or letter. -/
def boundaryAfterWord (rest : List Char) : Bool :=
  match rest with
  | [] => true
  | c :: _ => !isWordC c

/-- Model of `\b([0-1]?[0-9])[\/\-]([0-3]?[0-9])[\/\-]([0-9]{4})\b`. -/
def matchDateSlash (prev : Option Char) (cs : List Char) :
    Option (String × List Char) :=
  if !wordBoundary prev then none
  else
    firstSome (digitPairRests (fun c => c = '0' || c = '1') cs) (fun r1 =>
      match r1 with
      | s1 :: r1x =>
        if isDateSep s1 then
          firstSome (digitPairRests (fun c => '0' ≤ c && c ≤ '3') r1x) (fun r2 =>
            match r2 with
            | s2 :: r2x =>
              if isDateSep s2 then
                match fourDigitRest r2x with
                | some r3 =>
                  if boundaryAfterWord r3 then some (consumedStr cs r3, r3) else none
                | none => none
              else none
            | [] => none)
        else none
      | [] => none)

def fullMonthNames : List String :=
  ["january", "february", "march", "april", "may", "june", "july", "august",
    "september", "october", "november", "december"]

def abbrevMonthNames : List String :=
  ["jan", "feb", "mar", "apr", "may", "jun", "jul", "aug", "sep", "oct", "nov", "dec"]

/-- Model of `,?\s+`. -/
def commaWsPlus (cs : List Char) : Option (List Char) :=
  match cs with
  | ',' :: rest => wsPlus rest
  | _ => wsPlus cs

/-- Model of `\b(Name…)\.?\s+([0-3]?[0-9]),?\s+([0-9]{4})\b` for the two
month-name date patterns (`withDot` enables the abbreviated `\.?`),
case-insensitive. -/
def matchDateMonthName (names : List String) (withDot : Bool) (prev : Option Char)
    (cs : List Char) : Option (String × List Char) :=
  if !wordBoundary prev then none
  else
    firstSome names (fun nm =>
      match dropCI nm.toList cs with
      | some r1 =>
        let r1b :=
          if withDot then
            match r1 with
            | '.' :: t => t
            | _ => r1
          else r1
        match wsPlus r1b with
        | some r2 =>
          firstSome (digitPairRests (fun c => '0' ≤ c && c ≤ '3') r2) (fun r3 =>
            match commaWsPlus r3 with
            | some r4 =>
              match fourDigitRest r4 with
              | some r5 =>
                if boundaryAfterWord r5 then some (consumedStr cs r5, r5) else none
              | none => none
            | none => none)
        | none => none
      | none => none)

/-- Model of `\b([0-9]{4})-([0-1][0-9])-([0-3][0-9])\b` (the extraction-engine
ISO pattern, with its narrower month/day classes). -/
def matchDateIso (prev : Option Char) (cs : List Char) :
    Option (String × List Char) :=
  if !wordBoundary prev then none
  else
    match fourDigitRest cs with
    | some r1 =>
      match r1 with
      | '-' :: m1 :: m2 :: '-' :: d1 :: d2 :: rest =>
        if (m1 = '0' || m1 = '1') && m2.isDigit &&
           ('0' ≤ d1 && d1 ≤ '3') && d2.isDigit then
          if boundaryAfterWord rest then some (consumedStr cs rest, rest) else none
        else none
      | _ => none
    | none => none

/-- Model of `calculateDateConfidence`. -/
def calculateDateConfidence (_dateStr context : String) : ℚ :=
  let c0 : ℚ := mkRat 75 100
  let c1 :=
    if containsSub (toLowerStr context) "on" ||
       containsSub (toLowerStr context) "date" ||
       containsSub (toLowerStr context) "signed" ||
       containsSub (toLowerStr context) "occurred" then qAdd c0 (mkRat 15 100) else c0
  if (1 : ℚ) < c1 then 1 else c1

/-- Model of `extractDates`: the four date patterns, tagged `date_pattern_i`. -/
def extractDates (content : String) : List ExtractedFact :=
  let build := fun (m : Option Char → List Char → Option (String × List Char))
      (srcTag : String) =>
    (scanString m content).map (fun dm =>
      let context := getContext content dm.2
      { content := "Date: " ++ dm.1
        factType := "DATE"
        confidenceScore := calculateDateConfidence dm.1 context
        context := context
        source := srcTag : ExtractedFact })
  build matchDateSlash "date_pattern_0" ++
  build (matchDateMonthName fullMonthNames false) "date_pattern_1" ++
  build (matchDateMonthName abbrevMonthNames true) "date_pattern_2" ++
  build matchDateIso "date_pattern_3"

/-- Model of `[A-Z][a-z]+` (with `ci` both classes match any letter, which is
what the `i` flag does to them), as the rest. -/
def nameWord (ci : Bool) (cs : List Char) : Option (List Char) :=
  match cs with
  | c :: rest =>
    if (if ci then c.isAlpha else c.isUpper) then
      let lowers := rest.takeWhile (fun d => if ci then d.isAlpha else d.isLower)
      if lowers.isEmpty then none else some (rest.drop lowers.length)
    else none
  | [] => none

/-- Backtracking candidates (greedy order, most iterations first) of
`(?:\s+[A-Z][a-z]+)*`, as rests. -/
def starNameRests (ci : Bool) : Nat → List Char → List (List Char)
  | 0, cs => [cs]
  | fuel + 1, cs =>
    match wsPlus cs with
    | some r1 =>
      match nameWord ci r1 with
      | some r2 => starNameRests ci fuel r2 ++ [cs]
      | none => [cs]
    | none => [cs]

def personTitles : List String := ["Mr", "Mrs", "Ms", "Dr", "Prof"]

/-- Candidates after `(Mr\.?|Mrs\.?|Ms\.?|Dr\.?|Prof\.?)` in
backtracking order (each title greedy: with its dot first). -/
def titleCands (cs : List Char) : List (List Char) :=
  personTitles.flatMap (fun t =>
    match dropCS t.toList cs with
    | some r =>
      match r with
      | '.' :: r2 => [r2, r]
      | _ => [r]
    | none => [])

/-- Model of `\b(Mr\.?|…)\s+([A-Z][a-z]+(?:\s+[A-Z][a-z]+)*)` (case-sensitive). -/
def matchPersonTitle (prev : Option Char) (cs : List Char) :
    Option (String × List Char) :=
  if !wordBoundary prev then none
  else
    firstSome (titleCands cs) (fun r1 =>
      match wsPlus r1 with
      | some r2 =>
        match nameWord false r2 with
        | some r3 =>
          let r4 := (starNameRests false r3.length r3).headD r3
          some (consumedStr cs r4, r4)
        | none => none
      | none => none)

/-- Model of `\b([A-Z][a-z]+)\s+([A-Z]\.?\s+)?([A-Z][a-z]+)\b`. -/
def matchPersonFull (prev : Option Char) (cs : List Char) :
    Option (String × List Char) :=
  if !wordBoundary prev then none
  else
    match nameWord false cs with
    | some r1 =>
      match wsPlus r1 with
      | some r2 =>
        let midCands :=
          (match r2 with
           | m :: r3 =>
             if m.isUpper then
               (match r3 with
                | '.' :: r4 => (wsPlus r4).toList
                | _ => []) ++
               (wsPlus r3).toList
             else []
           | [] => []) ++ [r2]
        firstSome midCands (fun r5 =>
          match nameWord false r5 with
          | some r6 =>
            if boundaryAfterWord r6 then some (consumedStr cs r6, r6) else none
          | none => none)
      | none => none
    | none => none

def professionalTitles : List String :=
  ["attorney", "lawyer", "judge", "clerk", "officer", "detective", "agent"]

/-- Model of `\b(Attorney|…)\s+([A-Z][a-z]+(?:\s+[A-Z][a-z]+)*)`
(case-insensitive). -/
def matchPersonProfessional (prev : Option Char) (cs : List Char) :
    Option (String × List Char) :=
  if !wordBoundary prev then none
  else
    firstSome professionalTitles (fun t =>
      match dropCI t.toList cs with
      | some r1 =>
        match wsPlus r1 with
        | some r2 =>
          match nameWord true r2 with
          | some r3 =>
            let r4 := (starNameRests true r3.length r3).headD r3
            some (consumedStr cs r4, r4)
          | none => none
        | none => none
      | none => none)

/-- Model of `isLikelyPersonName`. -/
def isLikelyPersonName (nameStr : String) : Bool :=
  !(["United States", "New York", "Los Angeles", "Social Security"].any
    (fun fp => containsSub nameStr fp))

/-- Model of `^[A-Z][a-z]+\s+[A-Z][a-z]+$` — the proper-name test of
`calculatePersonConfidence`. -/
def isSimpleFullName (s : String) : Bool :=
  match nameWord false s.toList with
  | some r1 =>
    match wsPlus r1 with
    | some r2 =>
      match nameWord false r2 with
      | some r3 => r3.isEmpty
      | none => false
    | none => false
  | none => false

/-- Model of `calculatePersonConfidence`. -/
def calculatePersonConfidence (nameStr context : String) : ℚ :=
  let c0 : ℚ := mkRat 6 10
  let c1 :=
    if containsSub (toLowerStr context) "attorney" ||
       containsSub (toLowerStr context) "judge" ||
       containsSub (toLowerStr context) "witness" ||
       containsSub (toLowerStr context) "defendant" ||
       containsSub (toLowerStr context) "plaintiff" then qAdd c0 (mkRat 3 10) else c0
  let c2 := if isSimpleFullName (trimStr nameStr) then qAdd c1 (mkRat 1 10) else c1
  if (1 : ℚ) < c2 then 1 else c2

/-- Model of `extractPersons`: the three person patterns with the
false-positive filter. -/
def extractPersons (content : String) : List ExtractedFact :=
  let build := fun (m : Option Char → List Char → Option (String × List Char))
      (srcTag : String) =>
    (scanString m content).filterMap (fun pm =>
      if isLikelyPersonName pm.1 then
        let context := getContext content pm.2
        some { content := "Person: " ++ pm.1
               factType := "PERSON"
               confidenceScore := calculatePersonConfidence pm.1 context
               context := context
               source := srcTag : ExtractedFact }
      else none)
  build matchPersonTitle "person_pattern_0" ++
  build matchPersonFull "person_pattern_1" ++
  build matchPersonProfessional "person_pattern_2"

def streetTypes : List String :=
  ["street", "st", "avenue", "ave", "road", "rd", "drive", "dr", "lane", "ln",
    "boulevard", "blvd"]

/-- Model of `(Street|St\.?|Avenue|Ave\.?|…)` case-insensitively (each
alternative greedy: with its dot first), as the rest. -/
def streetTypeRest (cs : List Char) : Option (List Char) :=
  firstSome streetTypes (fun t =>
    match dropCI t.toList cs with
    | some r =>
      match r with
      | '.' :: r2 => some r2
      | _ => some r
    | none => none)

/-- Model of `\b([0-9]+)\s+([A-Z][a-z]+(?:\s+[A-Z][a-z]+)*)\s+(Street|…)`
(case-insensitive). -/
def matchAddress (prev : Option Char) (cs : List Char) :
    Option (String × List Char) :=
  if !wordBoundary prev then none
  else
    let digits := cs.takeWhile Char.isDigit
    if digits.isEmpty then none
    else
      match wsPlus (cs.drop digits.length) with
      | some r1 =>
        match nameWord true r1 with
        | some r2 =>
          firstSome (starNameRests true r2.length r2) (fun r3 =>
            match wsPlus r3 with
            | some r4 =>
              match streetTypeRest r4 with
              | some r5 => some (consumedStr cs r5, r5)
              | none => none
            | none => none)
        | none => none
      | none => none

/-- Model of `\b([A-Z][a-z]+(?:\s+[A-Z][a-z]+)*),\s+([A-Z]{2})\b`
(case-sensitive). -/
def matchCityState (prev : Option Char) (cs : List Char) :
    Option (String × List Char) :=
  if !wordBoundary prev then none
  else
    match nameWord false cs with
    | some r1 =>
      firstSome (starNameRests false r1.length r1) (fun r2 =>
        match r2 with
        | ',' :: r3 =>
          match wsPlus r3 with
          | some (a :: b :: r4) =>
            if a.isUpper && b.isUpper && boundaryAfterWord r4 then
              some (consumedStr cs r4, r4)
            else none
          | _ => none
        | _ => none)
    | none => none

/-- Model of `extractLocations`: the address pattern (confidence 0.9) and the
city-state pattern (confidence 0.85). -/
def extractLocations (content : String) : List ExtractedFact :=
  (scanString matchAddress content).map (fun am =>
    { content := "Address: " ++ am.1
      factType := "LOCATION"
      confidenceScore := mkRat 9 10
      context := getContext content am.2
      source := "address_pattern" }) ++
  (scanString matchCityState content).map (fun cm =>
    { content := "Location: " ++ cm.1
      factType := "LOCATION"
      confidenceScore := mkRat 85 100
      context := getContext content cm.2
      source := "city_state_pattern" })

/-- Model of `[.!?]` — the sentence-split class. -/
def isSentEnd (c : Char) : Bool := c = '.' || c = '!' || c = '?'

/-- JS `content.split(/[.!?]+/)` (pieces between separator runs,
including empty boundary pieces). -/
def splitSentencePieces : List Char → List Char → List String
  | [], acc => [String.mk acc.reverse]
  | c :: rest, acc =>
    if isSentEnd c then String.mk acc.reverse :: splitSentenceSkip rest
    else splitSentencePieces rest (c :: acc)
where
  /-- Continue after a separator run. -/
  splitSentenceSkip : List Char → List String
  | [] => [""]
  | c :: rest => if isSentEnd c then splitSentenceSkip rest else splitSentencePieces rest [c]

/-- Model of `\b[0-9]{1,2}:[0-9]{2}\b` — the time test of
`calculateStatementConfidence`. -/
def matchTimeAt (prev : Option Char) (cs : List Char) : Option (Unit × List Char) :=
  if !wordBoundary prev then none
  else
    firstSome (digitPairRests (fun c => c.isDigit) cs) (fun r1 =>
      match r1 with
      | ':' :: a :: b :: rest =>
        if a.isDigit && b.isDigit && boundaryAfterWord rest then some ((), rest) else none
      | _ => none)

/-- Model of `\$[0-9,]+` — the money test of `calculateStatementConfidence`. -/
def matchMoneyAt (_prev : Option Char) (cs : List Char) : Option (Unit × List Char) :=
  match cs with
  | '$' :: rest =>
    let run := rest.takeWhile isNumC
    if run.isEmpty then none else some ((), rest.drop run.length)
  | _ => none

def factualIndicatorsLong : List String :=
  ["occurred", "happened", "stated", "testified", "witnessed", "observed", "documented"]

/-- Model of `calculateStatementConfidence`. -/
def calculateStatementConfidence (statement : String) : ℚ :=
  let base : ℚ := mkRat 5 10
  let indicatorCount :=
    (factualIndicatorsLong.filter (fun ind => containsSub (toLowerStr statement) ind)).length
  let c1 := qAdd base (qMul (indicatorCount : ℚ) (mkRat 1 10))
  let c2 := if (scanString matchTimeAt statement).isEmpty then c1 else qAdd c1 (mkRat 1 10)
  let c3 := if (scanString matchMoneyAt statement).isEmpty then c2 else qAdd c2 (mkRat 1 10)
  if (1 : ℚ) < c3 then 1 else c3

def factualIndicatorsShort : List String :=
  ["occurred", "happened", "was", "were", "did", "stated", "said", "received",
    "paid", "signed"]

/-- Model of `isFactualStatement`. -/
def isFactualStatement (statement : String) : Bool :=
  if containsSub statement "?" ||
     startsWithL "i think".toList (toLowerStr statement).toList ||
     startsWithL "in my opinion".toList (toLowerStr statement).toList ||
     containsSub (toLowerStr statement) "page " ||
     statement.toList.length < 20 then false
  else factualIndicatorsShort.any (fun ind => containsSub (toLowerStr statement) ind)

/-- Model of `getSentenceContext`. -/
def getSentenceContext (sentences : List String) (index : Nat) : String :=
  let start := index - 1
  let stop := min sentences.length (index + 2)
  trimStr (String.intercalate ". " ((sentences.drop start).take (stop - start)))

/-- Model of `extractStatements`: sentence segmentation, the factual filter, and
the per-sentence confidence. -/
def extractStatements (content : String) : List ExtractedFact :=
  let sentences :=
    (splitSentencePieces content.toList []).filter
      (fun s => 10 < (trimStr s).toList.length)
  (sentences.enum.filterMap (fun si =>
    let trimmedSentence := trimStr si.2
    if isFactualStatement trimmedSentence then
      some { content := trimmedSentence
             factType := "STATEMENT"
             confidenceScore := calculateStatementConfidence trimmedSentence
             context := getSentenceContext sentences si.1
             source := "statement_analysis" : ExtractedFact }
    else none))

/-- Model of `[0-9\-]`. -/
def isAcctC (c : Char) : Bool := c.isDigit || c = '-'

/-- Model of `([0-9\-]{8,20})\b`: greedy from `min(run, 20)` down to 8, each
candidate checked for the trailing word boundary. -/
def acctNumberCands (cs : List Char) : List (List Char × List Char) :=
  let run := cs.takeWhile isAcctC
  ((List.range 13).filterMap (fun i =>
    let k := min run.length 20 - i
    if 8 ≤ k ∧ k ≤ run.length then
      let cap := cs.take k
      let rest := cs.drop k
      match cap.getLast? with
      | some last => if boundaryAfter last rest then some (cap, rest) else none
      | none => none
    else none))

/-- Model of `\b(?:Account|Acct)\.?\s*(?:Number|No\.?|#)?\s*:?\s*([0-9\-]{8,20})\b`
(case-insensitive). -/
def matchAccountNumber (prev : Option Char) (cs : List Char) :
    Option (String × List Char) :=
  if !wordBoundary prev then none
  else
    let kw :=
      match dropCI "account".toList cs with
      | some r => some r
      | none => dropCI "acct".toList cs
    match kw with
    | some r1 =>
      let dotCands :=
        match r1 with
        | '.' :: r2 => [r2, r1]
        | _ => [r1]
      firstSome dotCands (fun r3 =>
        let r4 := wsStar r3
        let labelCands :=
          (match dropCI "number".toList r4 with
           | some r5 => [r5]
           | none => []) ++
          (match dropCI "no".toList r4 with
           | some r5 =>
             match r5 with
             | '.' :: r6 => [r6, r5]
             | _ => [r5]
           | none => []) ++
          (match r4 with
           | '#' :: r5 => [r5]
           | _ => []) ++ [r4]
        firstSome labelCands (fun r7 =>
          let r8 := wsStar r7
          let colonCands :=
            match r8 with
            | ':' :: r9 => [r9, r8]
            | _ => [r8]
          firstSome colonCands (fun r10 =>
            let r11 := wsStar r10
            firstSome (acctNumberCands r11) (fun cap =>
              some (String.mk cap.1, cap.2)))))
    | none => none

def transactionKeywords : List String :=
  ["payment", "transaction", "transfer", "deposit", "withdrawal"]

/-- Model of `\b(?:payment|transaction|transfer|deposit|withdrawal)\s*(?:of|for)?\s*\$([0-9,]+(?:\.[0-9]{2})?)`
(case-insensitive). -/
def matchTransactionAmount (prev : Option Char) (cs : List Char) :
    Option (String × List Char) :=
  if !wordBoundary prev then none
  else
    firstSome transactionKeywords (fun kw =>
      match dropCI kw.toList cs with
      | some r1 =>
        let r2 := wsStar r1
        let prepCands :=
          (match dropCI "of".toList r2 with
           | some r3 => [r3]
           | none => []) ++
          (match dropCI "for".toList r2 with
           | some r3 => [r3]
           | none => []) ++ [r2]
        firstSome prepCands (fun r4 =>
          match wsStar r4 with
          | '$' :: r5 => (amountDigits r5).map (fun p => (String.mk p.1, p.2))
          | _ => none)
      | none => none)

/-- Model of `extractFinancialFacts`: account numbers (confidence 0.95) and
transaction amounts (confidence 0.9). -/
def extractFinancialFacts (content : String) : List ExtractedFact :=
  (scanString matchAccountNumber content).map (fun am =>
    { content := "Account Number: " ++ am.1
      factType := "ACCOUNT"
      confidenceScore := mkRat 95 100
      context := getContext content am.2
      source := "financial_account" }) ++
  (scanString matchTransactionAmount content).map (fun tm =>
    { content := "Transaction Amount: $" ++ tm.1
      factType := "TRANSACTION"
      confidenceScore := mkRat 9 10
      context := getContext content tm.2
      source := "financial_transaction" })

/-- Model of `[A-Z0-9\-]`. -/
def isCaseNoC (c : Char) : Bool := c.isUpper || c.isDigit || c = '-'

def caseKeywords : List String := ["case", "docket", "file"]

/-- Model of `\b(?:Case|Docket|File)\s*(?:Number|No\.?|#)?\s*:?\s*([A-Z0-9\-]+)\b`
(case-insensitive; the `i` flag also makes `[A-Z0-9\-]` match
lowercase letters). -/
def matchCaseNumber (prev : Option Char) (cs : List Char) :
    Option (String × List Char) :=
  if !wordBoundary prev then none
  else
    firstSome caseKeywords (fun kw =>
      match dropCI kw.toList cs with
      | some r1 =>
        let r2 := wsStar r1
        let labelCands :=
          (match dropCI "number".toList r2 with
           | some r3 => [r3]
           | none => []) ++
          (match dropCI "no".toList r2 with
           | some r3 =>
             match r3 with
             | '.' :: r4 => [r4, r3]
             | _ => [r3]
           | none => []) ++
          (match r2 with
           | '#' :: r3 => [r3]
           | _ => []) ++ [r2]
        firstSome labelCands (fun r5 =>
          let r6 := wsStar r5
          let colonCands :=
            match r6 with
            | ':' :: r7 => [r7, r6]
            | _ => [r6]
          firstSome colonCands (fun r8 =>
            let r9 := wsStar r8
            let run := r9.takeWhile (fun c => isCaseNoC c || c.isLower)
            if run.isEmpty then none
            else
              let rest := r9.drop run.length
              match run.getLast? with
              | some last =>
                if boundaryAfter last rest then some (String.mk run, rest) else none
              | none => none))
      | none => none)

/-- Model of `extractGovernmentFacts`: case numbers (confidence 0.95). -/
def extractGovernmentFacts (content : String) : List ExtractedFact :=
  (scanString matchCaseNumber content).map (fun cm =>
    { content := "Case Number: " ++ cm.1
      factType := "CASE_NUMBER"
      confidenceScore := mkRat 95 100
      context := getContext content cm.2
      source := "government_case" })

def contractTermKeywords : List String := ["term", "duration", "period"]

def contractUnitWords : List String := ["day", "month", "year"]

/-- Model of `\b(?:term|duration|period)\s*(?:of|is)?\s*([0-9]+)\s*(days?|months?|years?)`
(case-insensitive), returning the two captures. -/
def matchContractTerm (prev : Option Char) (cs : List Char) :
    Option ((String × String) × List Char) :=
  if !wordBoundary prev then none
  else
    firstSome contractTermKeywords (fun kw =>
      match dropCI kw.toList cs with
      | some r1 =>
        let r2 := wsStar r1
        let prepCands :=
          (match dropCI "of".toList r2 with
           | some r3 => [r3]
           | none => []) ++
          (match dropCI "is".toList r2 with
           | some r3 => [r3]
           | none => []) ++ [r2]
        firstSome prepCands (fun r4 =>
          let r5 := wsStar r4
          let digits := r5.takeWhile Char.isDigit
          if digits.isEmpty then none
          else
            let r6 := wsStar (r5.drop digits.length)
            firstSome contractUnitWords (fun u =>
              match dropCI u.toList r6 with
              | some r7 =>
                let unitChars := r6.take u.toList.length
                match r7 with
                | 's' :: r8 => some ((String.mk digits, String.mk (unitChars ++ ['s'])), r8)
                | _ => some ((String.mk digits, String.mk unitChars), r7)
              | none => none))
      | none => none)

/-- Model of `extractContractFacts`: contract terms (confidence 0.85). -/
def extractContractFacts (content : String) : List ExtractedFact :=
  (scanString matchContractTerm content).map (fun tm =>
    { content := "Contract Term: " ++ tm.1.1 ++ " " ++ tm.1.2
      factType := "CONTRACT_TERM"
      confidenceScore := mkRat 85 100
      context := getContext content tm.2
      source := "contract_term" })

/-- Model of `extractSpecializedFacts`: the financial pass requires
`fileType === 'application/pdf'` *and* the FINANCIAL_INSTITUTION tier;
the government pass requires the GOVERNMENT tier; the contract pass
requires "contract"/"agreement" in the text. -/
def extractSpecializedFacts (evidence : Evidence) (content : String) :
    List ExtractedFact :=
  (if evidence.fileType = some "application/pdf" &&
      evidence.evidenceTier = "FINANCIAL_INSTITUTION" then
    extractFinancialFacts content
   else []) ++
  (if evidence.evidenceTier = "GOVERNMENT" then extractGovernmentFacts content else []) ++
  (if containsSub (toLowerStr content) "contract" ||
      containsSub (toLowerStr content) "agreement" then
    extractContractFacts content
   else [])

/-- Model of `ExtractionConfig`. -/
structure ExtractionConfig where
  enableAmountExtraction : Bool
  enableDateExtraction : Bool
  enablePersonExtraction : Bool
  enableLocationExtraction : Bool
  enableStatementExtraction : Bool
  minimumConfidence : ℚ
deriving DecidableEq, Repr

def defaultExtractionConfig : ExtractionConfig :=
  { enableAmountExtraction := true
    enableDateExtraction := true
    enablePersonExtraction := true
    enableLocationExtraction := true
    enableStatementExtraction := true
    minimumConfidence := mkRat 6 10 }

/-- Model of `FactExtractionEngine.extractFacts`: the enabled families, the
specialized pass, then the minimum-confidence filter. -/
def extractFacts (evidence : Evidence) (content : String)
    (config : ExtractionConfig) : List ExtractedFact :=
  let facts :=
    (if config.enableAmountExtraction then extractAmounts content else []) ++
    (if config.enableDateExtraction then extractDates content else []) ++
    (if config.enablePersonExtraction then extractPersons content else []) ++
    (if config.enableLocationExtraction then extractLocations content else []) ++
    (if config.enableStatementExtraction then extractStatements content else []) ++
    extractSpecializedFacts evidence content
  facts.filter (fun f => decide (config.minimumConfidence ≤ f.confidenceScore))

/-! ### Concrete fixtures used by the concrete-input theorems -/

/-- All-ones quality metrics. -/
def onesMetrics : EvidenceQualityMetrics := ⟨1, 1, 1, 1, 1, 1⟩

/-- The six weights `calculateLikelihood` actually uses, summed
(written with the standard `ℚ` operations). -/
def usedLikelihoodWeightSum : ℚ :=
  likelihoodWeights.integrityVerified + likelihoodWeights.sourceAuthenticity +
  likelihoodWeights.corroboration + likelihoodWeights.technicalCompliance +
  likelihoodWeights.expertValidation + likelihoodWeights.temporalConsistency

/-- The eight tiers of the data model. -/
def definedTiers : List String :=
  ["SELF_AUTHENTICATING", "GOVERNMENT", "FINANCIAL_INSTITUTION",
    "INDEPENDENT_THIRD_PARTY", "BUSINESS_RECORDS", "FIRST_PARTY_ADVERSE",
    "FIRST_PARTY_FRIENDLY", "UNCORROBORATED_PERSON"]

/-- An evidence row whose tier is outside the eight defined tiers. -/
def eBadTier : Evidence :=
  { id := "EBAD", evidenceTier := "CORPORATE_RECORD", trustScore := "0.50",
    status := "PENDING" }

/-- A second such row, for the witness. -/
def eBadTier2 : Evidence :=
  { id := "EBAD2", evidenceTier := "SOCIAL_MEDIA", trustScore := "0.50",
    status := "PENDING" }

def eC3a : Evidence :=
  { id := "E3A", evidenceTier := "FINANCIAL_INSTITUTION", trustScore := "0.90",
    status := "VERIFIED", uploadedAt := 0, uploadedBy := some "u1" }

def eC3b : Evidence :=
  { id := "E3B", evidenceTier := "INDEPENDENT_THIRD_PARTY", trustScore := "0.80",
    status := "VERIFIED", uploadedAt := 86400000, uploadedBy := some "u2" }

/-- An "invoice amount" AMOUNT fact of $1,000. -/
def fC3a : AtomicFact := { content := "invoice amount: $1,000", factType := "AMOUNT" }

/-- An "invoice amount" AMOUNT fact of $1,600. -/
def fC3b : AtomicFact := { content := "invoice amount: $1,600", factType := "AMOUNT" }

/-- The same $1,000 invoice fact typed TRANSACTION. -/
def fC3aT : AtomicFact := { content := "invoice amount: $1,000", factType := "TRANSACTION" }

/-- The same $1,600 invoice fact typed TRANSACTION. -/
def fC3bT : AtomicFact := { content := "invoice amount: $1,600", factType := "TRANSACTION" }

/-- A "payment" DATE fact. -/
def fC4a : AtomicFact := { content := "payment on 01/05/2024", factType := "DATE" }

/-- A "payment" DATE fact ten days later. -/
def fC4b : AtomicFact := { content := "payment on 01/15/2024", factType := "DATE" }

/-- Same tier, same case, trust scores 0.20 vs 0.90 — triggers the
metadata trust-score-discrepancy rule. -/
def eC8a : Evidence :=
  { id := "E8A", evidenceTier := "GOVERNMENT", trustScore := "0.20",
    status := "VERIFIED", caseId := some "CASE-1", uploadedAt := 0,
    uploadedBy := some "u1" }

def eC8b : Evidence :=
  { id := "E8B", evidenceTier := "GOVERNMENT", trustScore := "0.90",
    status := "VERIFIED", caseId := some "CASE-1", uploadedAt := 7200000,
    uploadedBy := some "u1" }

/-- MINTED status but a `null` `mintedAt`. -/
def eC9 : Evidence :=
  { id := "E9", evidenceTier := "FINANCIAL_INSTITUTION", trustScore := "0.90",
    originalTrustScore := "0.90", status := "MINTED", mintedAt := none,
    trustDegradationRate := some "0.0001", lastTrustUpdate := 0 }

/-- FINANCIAL_INSTITUTION evidence whose file type is not a PDF. -/
def eC7 : Evidence :=
  { id := "E7", evidenceTier := "FINANCIAL_INSTITUTION", trustScore := "0.90",
    status := "PENDING", fileType := some "image/jpeg" }

/-- Text matching the account-number pattern of the financial pass. -/
def cC7 : String := "Account Number: 12345678"

/-! ## Theorems

First the bridge lemmas identifying the explicit rational operations
with the standard ones, then the claim theorems. -/

theorem den_q_ne (a : ℚ) : ((a.den : ℚ)) ≠ 0 := Nat.cast_ne_zero.mpr a.den_nz

theorem num_eq_mul_den (a : ℚ) : (a.num : ℚ) = a * a.den :=
  (div_eq_iff (den_q_ne a)).mp (Rat.num_div_den a)

theorem qAdd_eq (a b : ℚ) : qAdd a b = a + b := by
  rw [qAdd, Rat.divInt_eq_div]
  push_cast
  rw [num_eq_mul_den, num_eq_mul_den, div_eq_iff (mul_ne_zero (den_q_ne a) (den_q_ne b))]
  ring

theorem qSub_eq (a b : ℚ) : qSub a b = a - b := by
  rw [qSub, Rat.divInt_eq_div]
  push_cast
  rw [num_eq_mul_den, num_eq_mul_den, div_eq_iff (mul_ne_zero (den_q_ne a) (den_q_ne b))]
  ring

theorem qMul_eq (a b : ℚ) : qMul a b = a * b := by
  rw [qMul, Rat.divInt_eq_div]
  push_cast
  rw [num_eq_mul_den, num_eq_mul_den, div_eq_iff (mul_ne_zero (den_q_ne a) (den_q_ne b))]
  ring

theorem qNeg_eq (a : ℚ) : qNeg a = -a := by
  rw [qNeg, Rat.divInt_eq_div]
  push_cast
  rw [num_eq_mul_den, div_eq_iff (den_q_ne a)]
  ring

theorem qDiv_eq (a b : ℚ) : qDiv a b = a / b := by
  rcases eq_or_ne b 0 with hb | hb
  · subst hb
    rw [qDiv, div_zero]
    simp [Rat.divInt_eq_div]
  · have hbn : (b.num : ℚ) ≠ 0 := by
      exact_mod_cast Rat.num_ne_zero.mpr hb
    rw [qDiv, Rat.divInt_eq_div]
    push_cast
    rw [num_eq_mul_den, num_eq_mul_den,
      div_eq_div_iff (mul_ne_zero (den_q_ne a) (mul_ne_zero hb (den_q_ne b))) hb]
    ring

theorem qAbs_eq (a : ℚ) : qAbs a = |a| := by
  rw [qAbs]
  by_cases h : a < 0
  · rw [if_pos h, qNeg_eq, abs_of_neg h]
  · rw [if_neg h, abs_of_nonneg (not_lt.mp h)]

theorem qMax_eq (a b : ℚ) : qMax a b = max a b := by
  rw [qMax, max_def]
  rcases lt_trichotomy a b with h | h | h
  · rw [if_pos h, if_pos h.le]
  · subst h; simp
  · rw [if_neg (not_lt.mpr h.le), if_neg (not_le.mpr h)]

/-- Pushing a projection through a two-armed `if` on pairs. -/
theorem ite_pair_fst {c : Prop} [Decidable c] (a b : Nat × String) :
    (if c then a else b).1 = if c then a.1 else b.1 := by
  split <;> rfl

/-- C1.  For every evidence row that exists (with its custody records
and the query clock), `calculateMintingEligibility` returns a score
string equal to the exact sum of the six capped axis scores divided by
100 serialized with `toFixed(2)`, and `eligible` is `true` exactly when
that composite is at least 0.70. -/
theorem minting_score_is_normalized_axis_sum (e : Evidence)
    (custody : List ChainOfCustody) (now : Int) :
    (calculateMintingEligibility e custody now).score =
      toFixed2 ((sixAxisTotal e custody now : ℚ) / 100) ∧
    ((calculateMintingEligibility e custody now).eligible = true ↔
      (7 : ℚ) / 10 ≤ (sixAxisTotal e custody now : ℚ) / 100) := by
  have hq : ∀ t : Nat, qDiv (t : ℚ) 100 = (t : ℚ) / 100 := fun t => qDiv_eq _ _
  have hm : (mkRat 7 10 : ℚ) = 7 / 10 := by
    rw [Rat.mkRat_eq_div]; norm_num
  constructor
  · simp only [calculateMintingEligibility, sixAxisTotal, sourceAxis, timeAxis,
      chainAxis, networkAxis, outcomesAxis, justiceAxis, ageHoursQ, ite_pair_fst, hq]
  · simp only [calculateMintingEligibility, sixAxisTotal, sourceAxis, timeAxis,
      chainAxis, networkAxis, outcomesAxis, justiceAxis, ageHoursQ, ite_pair_fst, hq,
      hm, decide_eq_true_eq]

/-- C2.  An evidence row minted via `mintEvidence` with any block
number and hash thereafter stores degradation rate `"0.0000"` (which
parses to 0), and `calculateCurrentTrustScore` returns exactly the
stored `trustScore` at every later query time. -/
theorem mint_freezes_trust (e : Evidence) (blockNumber hashValue : String)
    (t now : Int) :
    (mintEvidence e blockNumber hashValue t).trustDegradationRate = some "0.0000" ∧
    parseFloatQ "0.0000" = some 0 ∧
    calculateCurrentTrustScore (mintEvidence e blockNumber hashValue t) now =
      (mintEvidence e blockNumber hashValue t).trustScore := by
  refine ⟨rfl, by decide, ?_⟩
  simp [calculateCurrentTrustScore, mintEvidence]

/-- C9.  When `status = "MINTED"` but `mintedAt` is null, the freeze
branch of `calculateCurrentTrustScore` is not taken: the score is the
linear time-decay computation from `originalTrustScore`, exactly as
for non-minted evidence. -/
theorem minted_without_timestamp_decays (e : Evidence) (now : Int)
    (_h1 : e.status = "MINTED") (h2 : e.mintedAt = none) :
    calculateCurrentTrustScore e now = decayedTrustScore e now := by
  simp [calculateCurrentTrustScore, h2]

/-- Witness for C9: a MINTED row with null `mintedAt` decays from 0.90
to 0.80 after 1000 hours instead of reporting the frozen 0.90. -/
theorem minted_without_timestamp_decays_witness :
    eC9.status = "MINTED" ∧ eC9.mintedAt = none ∧
    calculateCurrentTrustScore eC9 3600000000 = decayedTrustScore eC9 3600000000 ∧
    calculateCurrentTrustScore eC9 3600000000 = "0.80" ∧ eC9.trustScore = "0.90" :=
  ⟨rfl, rfl, minted_without_timestamp_decays eC9 3600000000 rfl rfl, by decide, rfl⟩

/-- C10.  After `mintEvidence`, the stored `mintingEligible` flag is
`true` and the cached `mintingScore` is exactly `"1.00"`, for every
prior state of the row — the mint overwrites the cached eligibility
score unconditionally. -/
theorem mint_overwrites_eligibility_cache (e : Evidence)
    (blockNumber hashValue : String) (t : Int) :
    (mintEvidence e blockNumber hashValue t).mintingEligible = true ∧
    (mintEvidence e blockNumber hashValue t).mintingScore = "1.00" :=
  ⟨rfl, rfl⟩

/-- C5 counterexample: with all six quality metrics equal to 1 the
likelihood is 0.82, not 1 — the weights used do not sum to 1.0. -/
theorem all_ones_likelihood_is_not_one :
    calculateLikelihood onesMetrics = mkRat 82 100 ∧
    calculateLikelihood onesMetrics ≠ 1 := by
  constructor <;> decide

/-- C5 (amended).  The likelihood is the weighted sum of the six
quality metrics using six of the seven declared weights; the
`chainOfCustody` weight (0.18) is unused, the used weights sum to
0.82 (all seven sum to 1.0), and all-ones metrics give likelihood
0.82. -/
theorem likelihood_is_six_term_weighted_sum (m : EvidenceQualityMetrics) :
    calculateLikelihood m =
      m.integrity * likelihoodWeights.integrityVerified +
      m.authenticity * likelihoodWeights.sourceAuthenticity +
      m.reliability * likelihoodWeights.corroboration +
      m.completeness * likelihoodWeights.technicalCompliance +
      m.admissibility * likelihoodWeights.expertValidation +
      m.temporalRelevance * likelihoodWeights.temporalConsistency ∧
    usedLikelihoodWeightSum = 41 / 50 ∧
    usedLikelihoodWeightSum + likelihoodWeights.chainOfCustody = 1 ∧
    calculateLikelihood onesMetrics = usedLikelihoodWeightSum := by
  refine ⟨?_, ?_, ?_, ?_⟩
  · simp only [calculateLikelihood, qAdd_eq, qMul_eq]
    ring
  · norm_num [usedLikelihoodWeightSum, likelihoodWeights, Rat.mkRat_eq_div]
  · norm_num [usedLikelihoodWeightSum, likelihoodWeights, Rat.mkRat_eq_div]
  · norm_num [usedLikelihoodWeightSum, likelihoodWeights, calculateLikelihood,
      onesMetrics, qAdd_eq, qMul_eq, Rat.mkRat_eq_div]

/-- C6 counterexample: for the tier `"CORPORATE_RECORD"` (outside the
eight defined tiers) the Bayesian prior silently defaults to 0.5, the
authenticity score to 0.5 and the 6-axis source points to 0 instead of
failing; only the base-trust-score lookup fails at all (a `TypeError`
on `undefined`, not a `ConfigurationError` — no `ConfigurationError`
exists in the code base). -/
theorem unknown_tier_lookups_default_silently :
    bayesianPrior "CORPORATE_RECORD" = mkRat 1 2 ∧
    calculateAuthenticityScore eBadTier = mkRat 1 2 ∧
    sourceAxis eBadTier = 0 ∧
    calculateTrustScore "CORPORATE_RECORD" = none := by
  refine ⟨?_, ?_, ?_, ?_⟩ <;> decide

/-- C6 (amended).  For every tier outside the eight defined tiers:
the creation-time base-score lookup throws (modelled `none`), while
the Bayesian prior, authenticity score and 6-axis source score
silently default to 0.5, 0.5 and 0 respectively; none of them raises
a `ConfigurationError`. -/
theorem unknown_tier_behavior (e : Evidence) (h : e.evidenceTier ∉ definedTiers) :
    calculateTrustScore e.evidenceTier = none ∧
    bayesianPrior e.evidenceTier = mkRat 1 2 ∧
    calculateAuthenticityScore e = mkRat 1 2 ∧
    sourceAxis e = 0 := by
  simp only [definedTiers, List.mem_cons, List.not_mem_nil, or_false, not_or] at h
  obtain ⟨h1, h2, h3, h4, h5, h6, h7, h8⟩ := h
  refine ⟨?_, ?_, ?_, ?_⟩ <;>
    simp [calculateTrustScore, trustTierScore, bayesianPrior, priorProbability,
      calculateAuthenticityScore, authenticityTierScore, sourceAxis, mintTierScore,
      h1, h2, h3, h4, h5, h6, h7, h8]

/-- Witness for the amended C6 at the concrete tier
`"SOCIAL_MEDIA"`. -/
theorem unknown_tier_behavior_witness :
    calculateTrustScore eBadTier2.evidenceTier = none ∧
    bayesianPrior eBadTier2.evidenceTier = mkRat 1 2 ∧
    calculateAuthenticityScore eBadTier2 = mkRat 1 2 ∧
    sourceAxis eBadTier2 = 0 :=
  unknown_tier_behavior eBadTier2 (by decide)

/-- C3 counterexample: for the two "invoice" amount facts of $1,000
and $1,600 the engine returns exactly one contradiction, a NUMERICAL
one of severity `medium` — in particular no NUMERICAL contradiction of
severity `high`, refuting the claim as stated: the code measures the
gap relative to the larger amount (37.5%), and `high` needs > 50%. -/
theorem invoice_gap_not_high_severity :
    (detectContradictions eC3a eC3b [fC3a] [fC3b]).map
        (fun r => (r.rtype, r.severity)) =
      [(ContradictionType.NUMERICAL, ContradictionSeverity.medium)] ∧
    ¬ ∃ r ∈ detectContradictions eC3a eC3b [fC3a] [fC3b],
        r.rtype = ContradictionType.NUMERICAL ∧
        r.severity = ContradictionSeverity.high := by
  refine ⟨by decide, by decide⟩

/-- C3 (amended).  For the two "invoice" facts of $1,000 and $1,600 —
whether typed AMOUNT or TRANSACTION — the engine returns exactly one
NUMERICAL contradiction, of severity `medium` with confidence 0.9: the
percent difference is computed relative to the larger amount,
`|1000 - 1600| / max(1000, 1600) * 100 = 37.5`, not 60, and `high`
requires more than 50. -/
theorem invoice_gap_yields_medium_numerical :
    detectContradictions eC3a eC3b [fC3a] [fC3b] =
      [{ rtype := ContradictionType.NUMERICAL
         severity := ContradictionSeverity.medium
         descriptionField := "Numerical discrepancy: invoice amount: $1,000 vs invoice amount: $1,600 (37.5% difference)"
         confidence := mkRat 9 10
         evidence1Id := "E3A"
         evidence2Id := "E3B" }] ∧
    detectContradictions eC3a eC3b [fC3aT] [fC3bT] =
      detectContradictions eC3a eC3b [fC3a] [fC3b] ∧
    extractNumberQ fC3a.content = some 1000 ∧
    extractNumberQ fC3b.content = some 1600 ∧
    qMul (qDiv (qAbs (qSub 1000 1600)) (qMax 1000 1600)) 100 = mkRat 75 2 ∧
    toFixed1 (mkRat 75 2) = "37.5" := by
  refine ⟨by decide, by decide, by decide, by decide, by decide, by decide⟩

/-- C4 counterexample: two "payment" DATE facts ten days apart produce
no TEMPORAL contradiction of severity `high` — ten days is more than a
day but less than a month, which `calculateTemporalSeverity` maps to
`medium`. -/
theorem payment_dates_not_high_severity :
    ¬ ∃ r ∈ detectContradictions eC3a eC3b [fC4a] [fC4b],
        r.rtype = ContradictionType.TEMPORAL ∧
        r.severity = ContradictionSeverity.high := by
  decide

/-- C4 (amended).  For the two "payment" DATE facts ten days apart the
engine returns exactly one TEMPORAL contradiction, of severity
`medium`, with confidence 0.9. -/
theorem payment_dates_yield_medium_temporal :
    detectContradictions eC3a eC3b [fC4a] [fC4b] =
      [{ rtype := ContradictionType.TEMPORAL
         severity := ContradictionSeverity.medium
         descriptionField := "Temporal impossibility: Events cannot occur at different times - payment on 01/05/2024 vs payment on 01/15/2024"
         confidence := mkRat 9 10
         evidence1Id := "E3A"
         evidence2Id := "E3B" }] := by
  decide

/-- C7 counterexample: `"Account Number: 12345678"` does match the
financial account pattern, yet for FINANCIAL_INSTITUTION evidence with
file type `image/jpeg` the full extraction yields no ACCOUNT and no
TRANSACTION fact — the specialized financial pass also requires
`fileType === 'application/pdf'`. -/
theorem financial_pass_skipped_for_non_pdf :
    (extractFinancialFacts cC7).map (fun f => f.factType) = ["ACCOUNT"] ∧
    (extractFacts eC7 cC7 defaultExtractionConfig).filter
      (fun f => decide (f.factType = "ACCOUNT")) = [] ∧
    (extractFacts eC7 cC7 defaultExtractionConfig).filter
      (fun f => decide (f.factType = "TRANSACTION")) = [] := by
  refine ⟨by decide, by decide, by decide⟩

/-- C7 (amended).  For FINANCIAL_INSTITUTION evidence the specialized
pass consists of the financial facts only when the file type is
`application/pdf` (plus the contract pass when the text mentions
contract/agreement); with any other file type the financial extraction
is skipped entirely. -/
theorem financial_pass_requires_pdf (e : Evidence) (content : String)
    (h : e.evidenceTier = "FINANCIAL_INSTITUTION") :
    extractSpecializedFacts e content =
      (if e.fileType = some "application/pdf" then extractFinancialFacts content
       else []) ++
      (if containsSub (toLowerStr content) "contract" ||
          containsSub (toLowerStr content) "agreement" then
        extractContractFacts content
       else []) := by
  simp [extractSpecializedFacts, h]

/-- Witness for the amended C7 at the concrete fixture. -/
theorem financial_pass_requires_pdf_witness :
    extractSpecializedFacts eC7 cC7 =
      (if eC7.fileType = some "application/pdf" then extractFinancialFacts cC7
       else []) ++
      (if containsSub (toLowerStr cC7) "contract" ||
          containsSub (toLowerStr cC7) "agreement" then
        extractContractFacts cC7
       else []) :=
  financial_pass_requires_pdf eC7 cC7 rfl

/-! ### Symmetry of the contradiction detectors (C8) -/

theorem bool_or_and_swap (x y z w : Bool) :
    ((x && y) || (z && w)) = ((w && z) || (y && x)) := by
  cases x <;> cases y <;> cases z <;> cases w <;> rfl

theorem bool_or3_and_swap (a b c d e f : Bool) :
    ((a && b) || (c && d) || (e && f)) = ((b && a) || (d && c) || (f && e)) := by
  cases a <;> cases b <;> cases c <;> cases d <;> cases e <;> cases f <;> rfl

theorem decide_eq_symm {α : Type} [DecidableEq α] (a b : α) :
    decide (a = b) = decide (b = a) := by
  by_cases h : a = b
  · subst h; rfl
  · simp [h, Ne.symm h]

theorem shouldBeSimultaneous_symm (f1 f2 : AtomicFact) :
    shouldBeSimultaneous f1 f2 = shouldBeSimultaneous f2 f1 := by
  simp only [shouldBeSimultaneous]
  congr 1
  funext ind
  exact Bool.and_comm _ _

theorem calculateSemanticSimilarity_symm (a b : String) :
    calculateSemanticSimilarity a b = calculateSemanticSimilarity b a := by
  simp only [calculateSemanticSimilarity]
  rw [Finset.inter_comm, Finset.union_comm]

theorem hasOppositeImplication_symm (a b : String) :
    hasOppositeImplication a b = hasOppositeImplication b a := by
  simp only [hasOppositeImplication]
  congr 1
  funext pr
  exact bool_or_and_swap _ _ _ _

theorem areLocationsSimilar_symm (a b : String) :
    areLocationsSimilar a b = areLocationsSimilar b a := by
  simp only [areLocationsSimilar]
  exact Bool.or_comm _ _

theorem shouldBeEqualAmounts_symm (f1 f2 : AtomicFact) :
    shouldBeEqualAmounts f1 f2 = shouldBeEqualAmounts f2 f1 := by
  simp only [shouldBeEqualAmounts]
  exact bool_or3_and_swap _ _ _ _ _ _

theorem shouldHaveSimilarTrustScores_symm (e1 e2 : Evidence) :
    shouldHaveSimilarTrustScores e1 e2 = shouldHaveSimilarTrustScores e2 e1 := by
  simp only [shouldHaveSimilarTrustScores]
  rw [decide_eq_symm e1.evidenceTier, decide_eq_symm e1.caseId]

theorem qAbs_qSub_comm (a b : ℚ) : qAbs (qSub a b) = qAbs (qSub b a) := by
  rw [qAbs_eq, qAbs_eq, qSub_eq, qSub_eq, abs_sub_comm]

theorem qMax_comm (a b : ℚ) : qMax a b = qMax b a := by
  rw [qMax_eq, qMax_eq, max_comm]

theorem compareTemporalFacts_key_symm (f1 f2 : AtomicFact) (e1 e2 : Evidence) :
    (compareTemporalFacts f1 f2 e1 e2).map keyOf =
    (compareTemporalFacts f2 f1 e2 e1).map keyOf := by
  simp only [compareTemporalFacts]
  cases h1 : parseDateMs f1.content <;> cases h2 : parseDateMs f2.content <;>
    simp only []
  case some.some t1 t2 =>
    rw [abs_sub_comm, shouldBeSimultaneous_symm]
    split
    · simp [keyOf]
      exact Multiset.cons_swap _ _ 0
    · rfl

theorem compareStatements_key_symm (f1 f2 : AtomicFact) (e1 e2 : Evidence) :
    (compareStatements f1 f2 e1 e2).map keyOf =
    (compareStatements f2 f1 e2 e1).map keyOf := by
  simp only [compareStatements]
  rw [show (negationPairs.any (fun pr =>
        (containsSub (toLowerStr f1.content) pr.1 && containsSub (toLowerStr f2.content) pr.2) ||
        (containsSub (toLowerStr f1.content) pr.2 && containsSub (toLowerStr f2.content) pr.1))) =
      (negationPairs.any (fun pr =>
        (containsSub (toLowerStr f2.content) pr.1 && containsSub (toLowerStr f1.content) pr.2) ||
        (containsSub (toLowerStr f2.content) pr.2 && containsSub (toLowerStr f1.content) pr.1)))
      from by
        congr 1
        funext pr
        exact bool_or_and_swap _ _ _ _]
  rw [calculateSemanticSimilarity_symm, hasOppositeImplication_symm]
  split
  · simp [keyOf]
    exact Multiset.cons_swap _ _ 0
  · split
    · simp [keyOf]
      exact Multiset.cons_swap _ _ 0
    · rfl

theorem compareNumericalFacts_key_symm (f1 f2 : AtomicFact) (e1 e2 : Evidence) :
    (compareNumericalFacts f1 f2 e1 e2).map keyOf =
    (compareNumericalFacts f2 f1 e2 e1).map keyOf := by
  simp only [compareNumericalFacts]
  cases h1 : extractNumberQ f1.content <;> cases h2 : extractNumberQ f2.content <;>
    simp only []
  case some.some a1 a2 =>
    rw [shouldBeEqualAmounts_symm, qAbs_qSub_comm, qMax_comm]
    split
    · split
      · simp [keyOf]
        exact Multiset.cons_swap _ _ 0
      · rfl
    · rfl

theorem compareLocations_key_symm (f1 f2 : AtomicFact) (e1 e2 : Evidence) :
    (compareLocations f1 f2 e1 e2).map keyOf =
    (compareLocations f2 f1 e2 e1).map keyOf := by
  simp only [compareLocations, shouldBeSameLocation]
  rw [areLocationsSimilar_symm]
  split
  · simp [keyOf]
    exact Multiset.cons_swap _ _ 0
  · rfl

theorem metadataTrustPart_key_symm (e1 e2 : Evidence) :
    (metadataTrustPart e1 e2).map keyOf = (metadataTrustPart e2 e1).map keyOf := by
  simp only [metadataTrustPart]
  rw [shouldHaveSimilarTrustScores_symm]
  split
  · cases h1 : parseFloatQ e1.trustScore <;> cases h2 : parseFloatQ e2.trustScore <;>
      simp only []
    case some.some t1 t2 =>
      rw [qAbs_qSub_comm]
      split
      · simp [keyOf]
        exact Multiset.cons_swap _ _ 0
      · rfl
  · rfl

theorem metadataUploadPart_key_symm (e1 e2 : Evidence) :
    (metadataUploadPart e1 e2).map keyOf = (metadataUploadPart e2 e1).map keyOf := by
  simp only [metadataUploadPart]
  rw [abs_sub_comm, decide_eq_symm e1.uploadedBy]
  split
  · simp [keyOf]
    exact Multiset.cons_swap _ _ 0
  · rfl

theorem filterMap_eq_flatMap_toList {β γ : Type} (l : List β) (g : β → Option γ) :
    l.filterMap g = l.flatMap (fun b => (g b).toList) := by
  induction l with
  | nil => rfl
  | cons b t ih => cases hg : g b <;> simp [List.filterMap_cons, hg, ih]

/-- Swapping the roles of the two fact lists in a nested pairwise scan
permutes the results: both sides are the same multiset. -/
theorem pair_scan_swap {α β γ : Type} (l1 : List α) (l2 : List β)
    (F : α → β → Option γ) (G : β → α → Option γ) (h : ∀ a b, F a b = G b a) :
    (((l1.flatMap fun a => l2.filterMap (F a)) : List γ) : Multiset γ) =
    (((l2.flatMap fun b => l1.filterMap (G b)) : List γ) : Multiset γ) := by
  simp only [filterMap_eq_flatMap_toList]
  rw [← Multiset.coe_bind, ← Multiset.coe_bind]
  simp only [← Multiset.coe_bind]
  rw [Multiset.bind_bind]
  simp only [h]

/-- Lift a comparator-level key symmetry through the nested scan. -/
theorem detector_key_swap {α : Type} (l1 l2 : List α)
    (cmp cmp' : α → α → Option ContradictionResult)
    (h : ∀ a b, (cmp a b).map keyOf = (cmp' b a).map keyOf) :
    ((((l1.flatMap fun a => l2.filterMap (cmp a)).map keyOf) : List ContradictionKey) :
        Multiset ContradictionKey) =
    ((((l2.flatMap fun b => l1.filterMap (cmp' b)).map keyOf) : List ContradictionKey) :
        Multiset ContradictionKey) := by
  rw [List.map_flatMap, List.map_flatMap]
  simp only [List.map_filterMap]
  exact pair_scan_swap l1 l2 _ _ h

theorem map_keyOf_filter_conf (l : List ContradictionResult) :
    (((l.filter (fun c => decide (minimumConfidence ≤ c.confidence))).map keyOf :
        List ContradictionKey) : Multiset ContradictionKey) =
    Multiset.filter (fun k => minimumConfidence ≤ k.confidence)
      ((l.map keyOf : List ContradictionKey) : Multiset ContradictionKey) := by
  induction l with
  | nil => rfl
  | cons a t ih =>
    by_cases h : minimumConfidence ≤ a.confidence
    · rw [List.filter_cons, if_pos (by simpa using h), List.map_cons, ← Multiset.cons_coe,
        ih, List.map_cons, ← Multiset.cons_coe]
      refine (Multiset.filter_cons_of_pos _ ?_).symm
      exact h
    · rw [List.filter_cons, if_neg (by simpa using h), ih, List.map_cons,
        ← Multiset.cons_coe]
      refine (Multiset.filter_cons_of_neg _ ?_).symm
      exact h

theorem detectTemporal_key_symm (e1 e2 : Evidence) (f1 f2 : List AtomicFact) :
    (((detectTemporalContradictions e1 e2 f1 f2).map keyOf : List ContradictionKey) :
        Multiset ContradictionKey) =
    (((detectTemporalContradictions e2 e1 f2 f1).map keyOf : List ContradictionKey) :
        Multiset ContradictionKey) := by
  simp only [detectTemporalContradictions, detectImpossibleSequences, List.append_nil]
  exact detector_key_swap _ _ _ _ (fun a b => compareTemporalFacts_key_symm a b e1 e2)

theorem detectFactual_key_symm (e1 e2 : Evidence) (f1 f2 : List AtomicFact) :
    (((detectFactualContradictions e1 e2 f1 f2).map keyOf : List ContradictionKey) :
        Multiset ContradictionKey) =
    (((detectFactualContradictions e2 e1 f2 f1).map keyOf : List ContradictionKey) :
        Multiset ContradictionKey) := by
  simp only [detectFactualContradictions]
  exact detector_key_swap _ _ _ _ (fun a b => compareStatements_key_symm a b e1 e2)

theorem detectNumerical_key_symm (e1 e2 : Evidence) (f1 f2 : List AtomicFact) :
    (((detectNumericalContradictions e1 e2 f1 f2).map keyOf : List ContradictionKey) :
        Multiset ContradictionKey) =
    (((detectNumericalContradictions e2 e1 f2 f1).map keyOf : List ContradictionKey) :
        Multiset ContradictionKey) := by
  simp only [detectNumericalContradictions]
  exact detector_key_swap _ _ _ _ (fun a b => compareNumericalFacts_key_symm a b e1 e2)

theorem detectLocation_key_symm (e1 e2 : Evidence) (f1 f2 : List AtomicFact) :
    (((detectLocationContradictions e1 e2 f1 f2).map keyOf : List ContradictionKey) :
        Multiset ContradictionKey) =
    (((detectLocationContradictions e2 e1 f2 f1).map keyOf : List ContradictionKey) :
        Multiset ContradictionKey) := by
  simp only [detectLocationContradictions]
  exact detector_key_swap _ _ _ _ (fun a b => compareLocations_key_symm a b e1 e2)

theorem detectAll_key_symm (e1 e2 : Evidence) (f1 f2 : List AtomicFact) :
    (((detectContradictionsAll e1 e2 f1 f2).map keyOf : List ContradictionKey) :
        Multiset ContradictionKey) =
    (((detectContradictionsAll e2 e1 f2 f1).map keyOf : List ContradictionKey) :
        Multiset ContradictionKey) := by
  simp only [detectContradictionsAll, detectIdentityContradictions, detectRoleConflicts,
    detectLogicalContradictions, detectPhysicalImpossibilities,
    detectCausalImpossibilities, detectMetadataContradictions, List.map_append,
    List.map_nil, List.append_nil, List.nil_append]
  rw [Multiset.coe_eq_coe]
  exact ((((Multiset.coe_eq_coe.mp (detectTemporal_key_symm e1 e2 f1 f2)).append
    (Multiset.coe_eq_coe.mp (detectFactual_key_symm e1 e2 f1 f2))).append
    (Multiset.coe_eq_coe.mp (detectNumerical_key_symm e1 e2 f1 f2))).append
    (Multiset.coe_eq_coe.mp (detectLocation_key_symm e1 e2 f1 f2))).append
    ((List.Perm.of_eq (metadataTrustPart_key_symm e1 e2)).append
      (List.Perm.of_eq (metadataUploadPart_key_symm e1 e2)))

/-- C8 counterexample: with two same-tier, same-case evidence rows of
trust 0.20 and 0.90, `detectContradictions (B, A)` is *not* the result
of `detectContradictions (A, B)` with only the two id fields swapped:
the description embeds the two trust scores in argument order
("0.90 vs 0.20" instead of "0.20 vs 0.90"). -/
theorem detect_swap_changes_descriptions :
    detectContradictions eC8b eC8a [] [] ≠
      (detectContradictions eC8a eC8b [] []).map swapIds := by
  decide

/-- C8 (amended).  `detectContradictions` is symmetric up to swapped
evidence ids, result order, and the argument order inside the textual
description (and metadata) fields: for all inputs the two runs produce
the same multiset of (type, severity, confidence, unordered id pair)
keys. -/
theorem detectContradictions_symmetric_keys (e1 e2 : Evidence)
    (f1 f2 : List AtomicFact) :
    (((detectContradictions e1 e2 f1 f2).map keyOf : List ContradictionKey) :
        Multiset ContradictionKey) =
    (((detectContradictions e2 e1 f2 f1).map keyOf : List ContradictionKey) :
        Multiset ContradictionKey) := by
  simp only [detectContradictions]
  rw [map_keyOf_filter_conf, map_keyOf_filter_conf, detectAll_key_symm]

end ChittyLedger
